import Mathlib

/-!
Verification of the opendrive-engine conversion core.

This file gives a shallow embedding of the two source files of the
repository — src/src/convertor.cc (the conversion pipeline, topology
builder and curve sampler) and the unnamed kd-tree wrapper
(KDTreeAdaptor / KDTree::Search / KDTree::Init) — and proves or refutes
the frozen claims about them.

Modelling conventions:
  - C++ double / float values are modelled as exact rationals (ℚ).
  - The external opendrive-cpp geometry evaluator (Geometry::GetPoint),
    the lane-offset and lane-width polynomial evaluators, and the
    perpendicular offset helper GetOffsetPoint are external collaborators
    of this core; they are modelled as function-valued parameters
    (the OffsetModel structure abstracts the trigonometric direction
    of GetOffsetPoint, preserving heading and arc-length as the spec
    describes).
  - std::map is modelled as an association list with insert-or-overwrite
    semantics (mapInsert), matching operator[] assignment.
  - C++ std::string identifiers are modelled as Lean String, built with
    the same concatenation scheme.
-/

namespace OpenDriveEngine

/-- A sampled curve point: x, y, heading, arc-length position
(start_position, called s here) and a compound string id. -/
structure Pt where
  x : ℚ := 0
  y : ℚ := 0
  heading : ℚ := 0
  s : ℚ := 0
  id : String := ""
deriving DecidableEq

def pt0 : Pt := {}

/-- A raw geometry-evaluator output: x, y and heading only
(element::Point as produced by Geometry::GetPoint). -/
structure RawPt where
  x : ℚ := 0
  y : ℚ := 0
  heading : ℚ := 0
deriving DecidableEq

/-- Abstraction of the external opendrive-cpp GetOffsetPoint helper: the
point is shifted perpendicular to its heading, so the displacement per
unit offset is a function of the heading only; heading and arc-length
are preserved. -/
structure OffsetModel where
  nx : ℚ → ℚ
  ny : ℚ → ℚ

/-- GetOffsetPoint on a raw element point. -/
def offsetRaw (om : OffsetModel) (p : RawPt) (d : ℚ) : RawPt :=
  { p with x := p.x + d * om.nx p.heading, y := p.y + d * om.ny p.heading }

/-- GetOffsetPoint on a full curve point: x and y are shifted, heading and
arc-length position are preserved (the caller overwrites the id). -/
def offsetPt (om : OffsetModel) (p : Pt) (d : ℚ) : Pt :=
  { p with x := p.x + d * om.nx p.heading, y := p.y + d * om.ny p.heading }

/-! ## Spatial index (kd-tree wrapper, unnamed source file) -/

/-- A centerline sample point as consumed by KDTreeAdaptor::Init:
only x, y and the id are read. -/
structure SamplePt where
  x : ℚ := 0
  y : ℚ := 0
  id : String := ""
deriving DecidableEq

/-- KDTreeAdaptor state: the 2-column coordinate matrix and the parallel
id column, as filled by KDTreeAdaptor::Init. -/
structure KDTreeAdaptor where
  matrix : List (ℚ × ℚ) := []
  ids : List String := []
deriving DecidableEq

/-- KDTreeAdaptor::Init: discards the previous contents and fills the
matrix and ids from the samples, in order. -/
def adaptorInit (samples : List SamplePt) : KDTreeAdaptor :=
  { matrix := samples.map (fun p => (p.x, p.y)), ids := samples.map (fun p => p.id) }

/-- A single search result. The C++ KDTreeResult stores
dist = std::sqrt(dists[i]); here the squared distance dist2 is stored
and the square root is applied in the statements (Real.sqrt), since the
true distance is irrational in general. -/
structure KDTreeResult where
  x : ℚ := 0
  y : ℚ := 0
  id : String := ""
  dist2 : ℚ := 0
deriving DecidableEq

/-- Squared Euclidean distance between (px, py) and (qx, qy), the quantity
nanoflann accumulates for its L2 metric. -/
def sqDist (px py qx qy : ℚ) : ℚ :=
  (px - qx) ^ 2 + (py - qy) ^ 2

/-- Modelled from the external nanoflann contract: knnSearch returns the
min(k, N) nearest indices together with their squared distances, in
ascending order of squared distance (ties broken by an
implementation-defined order). -/
def knnSearchModel (matrix : List (ℚ × ℚ)) (x y : ℚ) (k : ℕ) : List (ℕ × ℚ) :=
  (List.insertionSort (fun a b => a.2 ≤ b.2)
    (matrix.enum.map (fun ip => (ip.1, sqDist ip.2.1 ip.2.2 x y)))).take k

/-- KDTree::Search. The results container is cleared first; the indices
and dists vectors are allocated with length num_closest, so the
out-of-range check compares num_closest against the matrix size and
fails (returning -1) with the results still empty; otherwise each of the
k results is filled from the adaptor columns, with the square-rooted
distance (stored squared here, see KDTreeResult). -/
def kdSearch (t : KDTreeAdaptor) (x y : ℚ) (k : ℕ) (resultsIn : List KDTreeResult) :
    Int × List KDTreeResult :=
  let results : List KDTreeResult := []
  let pairs := knnSearchModel t.matrix x y k
  if t.matrix.length < k then (-1, results)
  else
    (0, results ++ pairs.map (fun ip =>
      { x := (t.matrix.getD ip.1 (0, 0)).1
        y := (t.matrix.getD ip.1 (0, 0)).2
        id := t.ids.getD ip.1 ("")
        dist2 := ip.2 }))

/-- KDTree::Search together with the index it leaves behind: the C++
member function writes only the results container and locals, so the
adaptor and index are returned untouched. -/
def kdSearchFull (t : KDTreeAdaptor) (x y : ℚ) (k : ℕ) (resultsIn : List KDTreeResult) :
    KDTreeAdaptor × Int × List KDTreeResult :=
  (t, kdSearch t x y k resultsIn)

end OpenDriveEngine

namespace OpenDriveEngine

/-! ## Parsed element model (input of the convertor) -/

/-- A plan-view geometry segment: its arc-length domain and the external
closed-form evaluator Geometry::GetPoint. -/
structure EleGeometry where
  sStart : ℚ := 0
  sEnd : ℚ := 0
  gtype : ℕ := 0
  getPoint : ℚ → RawPt := fun _ => {}

/-- A lane-offset table entry: its start position and the external
polynomial evaluator LaneOffset::GetOffsetValue. -/
structure EleLaneOffset where
  sStart : ℚ := 0
  getOffsetValue : ℚ → ℚ := fun _ => 0

def eleLaneOffset0 : EleLaneOffset := {}

/-- A parsed lane: its signed local index and the external width
evaluator Lane::GetLaneWidth. -/
structure EleLane where
  id : Int := 0
  getLaneWidth : ℚ → ℚ := fun _ => 0

/-- A parsed lane section with its center, left and right lane groups. -/
structure EleLaneSection where
  sStart : ℚ := 0
  sEnd : ℚ := 0
  center : List EleLane := []
  left : List EleLane := []
  right : List EleLane := []

structure EleRoadLink where
  predecessorId : Int := -1
  successorId : Int := -1

structure EleRoadTypeInfo where
  startPosition : ℚ := 0
  rtype : ℕ := 0

/-- A parsed road. -/
structure EleRoad where
  id : Int := 0
  name : String := ""
  junctionId : Int := -1
  rlength : ℚ := 0
  rule : ℕ := 0
  link : EleRoadLink := {}
  typeInfo : List EleRoadTypeInfo := []
  geometrys : List EleGeometry := []
  laneOffsets : List EleLaneOffset := []
  laneSections : List EleLaneSection := []

structure EleJunction where
  id : Int := 0
  name : String := ""
  jtype : ℕ := 0

structure EleHeader where
  revMajor : String := ""
  revMinor : String := ""
  name : String := ""
  version : String := ""
  date : String := ""
  north : ℚ := 0
  south : ℚ := 0
  west : ℚ := 0
  east : ℚ := 0
  vendor : String := ""

/-- The parsed map tree handed over by the external parser. -/
structure EleMap where
  header : EleHeader := {}
  roads : List EleRoad := []
  junctions : List EleJunction := []

/-! ## Core (output) model -/

inductive ErrCode where
  | OK
  | INIT_FACTORY_ERROR
  | INIT_MAPFILE_ERROR
  | CONVERTOR_CENTERLANE_ERROR
deriving DecidableEq

/-- Pipeline status: error code and message. -/
structure Status where
  code : ErrCode := ErrCode.OK
  msg : String := ""
deriving DecidableEq

/-- A core lane: id, parent section id, central curve, left and right
boundary curves and the geometry-type markers. -/
structure CoreLane where
  id : String := ""
  parentId : String := ""
  central : List Pt := []
  leftB : List Pt := []
  rightB : List Pt := []
  geoms : List (ℕ × Pt) := []
deriving DecidableEq

def coreLane0 : CoreLane := {}

structure CoreSection where
  id : String := ""
  parentId : String := ""
  sStart : ℚ := 0
  sEnd : ℚ := 0
  slength : ℚ := 0
  centerLane : Option CoreLane := none
  leftLanes : List CoreLane := []
  rightLanes : List CoreLane := []
deriving DecidableEq

structure RoadInfo where
  s : ℚ := 0
  rtype : ℕ := 0
deriving DecidableEq

structure CoreRoad where
  id : String := ""
  name : String := ""
  junctionId : String := ""
  rlength : ℚ := 0
  rule : ℕ := 0
  predecessorIds : List String := []
  successorIds : List String := []
  info : List RoadInfo := []
  sections : List CoreSection := []
deriving DecidableEq

structure CoreJunction where
  id : String := ""
  name : String := ""
  jtype : ℕ := 0
deriving DecidableEq

structure CoreHeader where
  revMajor : String := ""
  revMinor : String := ""
  name : String := ""
  version : String := ""
  date : String := ""
  north : ℚ := 0
  south : ℚ := 0
  west : ℚ := 0
  east : ℚ := 0
  vendor : String := ""
deriving DecidableEq

/-- Insert-or-overwrite on an association list, the semantics of
std::map operator[] assignment. -/
def mapInsert {α : Type} (k : String) (v : α) : List (String × α) → List (String × α)
  | [] => [(k, v)]
  | (k', v') :: rest => if k' = k then (k, v) :: rest else (k', v') :: mapInsert k v rest

def mapLookup {α : Type} (k : String) : List (String × α) → Option α
  | [] => none
  | (k', v) :: rest => if k' = k then some v else mapLookup k rest

/-- The repository (core::Data): header plus the four id-keyed maps. -/
structure ConvData where
  header : Option CoreHeader := none
  roads : List (String × CoreRoad) := []
  sections : List (String × CoreSection) := []
  lanes : List (String × CoreLane) := []
  junctions : List (String × CoreJunction) := []
deriving DecidableEq

/-- Convertor state: status flag, clamped sampling step, the flat
centerline-point collection, the repository, and the point set the
kd-tree was last built over. -/
structure Convertor where
  status : Status := {}
  stp : ℚ := 0
  centerLinePts : List Pt := []
  data : ConvData := {}
  kdtreePts : List Pt := []
deriving DecidableEq

/-- Convertor::Continue: the still-ok flag. -/
def stillOk (c : Convertor) : Prop :=
  c.status.code = ErrCode.OK

instance (c : Convertor) : Decidable (stillOk c) := by
  unfold stillOk; infer_instance

/-! ## Lookup helpers (Convertor::GetGeometry / GetLaneOffsetValue) -/

/-- Modelled from the spec: the external opendrive-cpp lookup
GetGtPtPoloy3 selects the first geometry segment whose domain upper
bound exceeds s, and yields a negative index when no segment covers s. -/
def geomFindIdx : List EleGeometry → ℚ → Int
  | [], _ => -1
  | g :: rest, s =>
    if s < g.sEnd then 0
    else
      let r := geomFindIdx rest s
      if r < 0 then -1 else 1 + r

def geomErrMsg : String := "get geometry index execption."

/-- The status recorded by GetGeometry when the lookup index is negative. -/
def geomErrStatus : Status :=
  { code := ErrCode.CONVERTOR_CENTERLANE_ERROR, msg := geomErrMsg }

/-- Convertor::GetGeometry: a negative lookup index records the
conversion error and returns no geometry; an index inside the vector
returns that geometry; the defensive out-of-range branch returns no
geometry without touching the status. -/
def getGeometry (geos : List EleGeometry) (rd : ℚ) (st : Status) :
    Option EleGeometry × Status :=
  let i := geomFindIdx geos rd
  if i < 0 then (none, { code := ErrCode.CONVERTOR_CENTERLANE_ERROR, msg := geomErrMsg })
  else if i < (geos.length : Int) then (geos[i.toNat]?, st)
  else (none, st)

/-- Modelled from the spec: the external opendrive-cpp lookup
GetGeValuePoloy3 selects the last lane-offset entry whose start does not
exceed s, and yields a negative index when none applies. -/
def offsetFindIdx : List EleLaneOffset → ℚ → Int
  | [], _ => -1
  | o :: rest, s =>
    let r := offsetFindIdx rest s
    if 0 ≤ r then 1 + r
    else if o.sStart ≤ s then 0 else -1

/-- Convertor::GetLaneOffsetValue, generic in the index lookup: an index
inside the table evaluates that entry, any out-of-range index yields
offset 0. -/
def getLaneOffsetValueWith (lookup : List EleLaneOffset → ℚ → Int)
    (offs : List EleLaneOffset) (rd : ℚ) : ℚ :=
  let i := lookup offs rd
  if 0 ≤ i ∧ i < (offs.length : Int) then (offs.getD i.toNat eleLaneOffset0).getOffsetValue rd
  else 0

def getLaneOffsetValue : List EleLaneOffset → ℚ → ℚ :=
  getLaneOffsetValueWith offsetFindIdx

/-! ## Center-lane sampling (Convertor::CenterLaneSampling) -/

/-- The 1e-10 numerical tolerance of the clamping test. -/
def tol : ℚ := 1 / 10000000000

/-- One sampled center-lane point: the reference point is used unchanged
when the lane offset at the road position is exactly zero, otherwise the
perpendicular offset is applied; the stored arc-length is the
section-local position and the id carries the running point index. -/
def mkSamplePoint (om : OffsetModel) (offs : List EleLaneOffset) (refe : RawPt)
    (rd sds : ℚ) (laneId : String) (idx : ℕ) : Pt :=
  let offset := getLaneOffsetValue offs rd
  if offset ≠ 0 then
    let op := offsetRaw om refe offset
    { x := op.x, y := op.y, heading := op.heading, s := sds,
      id := laneId ++ "_" ++ toString idx }
  else
    { x := refe.x, y := refe.y, heading := refe.heading, s := sds,
      id := laneId ++ "_" ++ toString idx }

/-- Result of the sampling loop: the mutated center lane, the final
road-local cursor, the status, and whether the loop exited through one
of its own break conditions (always true for sufficient fuel, see
sampleLoop_done). -/
structure LoopOut where
  lane : CoreLane
  roadDs : ℚ
  status : Status
  done : Bool
deriving DecidableEq

/-- The emission part of one loop iteration of CenterLaneSampling: the
sampled point is appended to the central curve and to both boundary
curves of the center lane, and a geometry marker is appended whenever
the geometry type differs from the previous one. -/
def emitLane (om : OffsetModel) (offs : List EleLaneOffset) (g : EleGeometry)
    (rd sds : ℚ) (idx : ℕ) (gty : Int) (lane : CoreLane) : CoreLane :=
  let point := mkSamplePoint om offs (g.getPoint rd) rd sds lane.id idx
  { lane with
    central := lane.central ++ [point]
    leftB := lane.leftB ++ [point]
    rightB := lane.rightB ++ [point]
    geoms := if gty ≠ (g.gtype : Int) then lane.geoms ++ [(g.gtype, point)] else lane.geoms }

/-- The while(true) loop of Convertor::CenterLaneSampling, made
structural on a fuel argument. Faithful points: when section_ds
overshoots the section length by less than step minus the tolerance,
C++ first assigns section_ds = length and only then subtracts
(section_ds - length) from road_ds, so road_ds is decreased by zero and
keeps its overshot value; every sampled point is appended to the
central curve and to both boundary curves; a geometry-type change
appends one marker. -/
def sampleLoop (om : OffsetModel) (geos : List EleGeometry) (offs : List EleLaneOffset)
    (L stp : ℚ) : ℕ → ℚ → ℚ → ℕ → Int → CoreLane → Status → LoopOut
  | 0, _, rd0, _, _, lane, st => ⟨lane, rd0, st, false⟩
  | fuel + 1, sds0, rd0, idx, gty, lane, st =>
    if sds0 > L ∧ sds0 - L ≥ stp - tol then ⟨lane, rd0, st, true⟩
    else
      let sds := if sds0 > L then L else sds0
      let rd := if sds0 > L then rd0 - (L - L) else rd0
      match getGeometry geos rd st with
      | (none, st') => ⟨lane, rd, st', true⟩
      | (some g, st') =>
        sampleLoop om geos offs L stp fuel (sds + stp) (rd + stp) (idx + 1) (g.gtype : Int)
          (emitLane om offs g rd sds idx gty lane) st'

/-- Fuel which provably suffices for the loop to reach one of its break
conditions: an integer upper bound of (L + 2 step) / step. -/
def sampleFuel (L stp : ℚ) : ℕ :=
  ((L + 2 * stp) / stp).num.toNat + 1

/-- Convertor::CenterLaneSampling: clears the central curve of the
center lane and runs the loop from section-local position 0 with the
incoming road cursor. -/
def centerLaneSampling (om : OffsetModel) (geos : List EleGeometry)
    (offs : List EleLaneOffset) (L : ℚ) (lane : CoreLane) (rd stp : ℚ) (st : Status) :
    LoopOut :=
  sampleLoop om geos offs L stp (sampleFuel L stp) 0 rd 0 (-1) { lane with central := [] } st

end OpenDriveEngine

namespace OpenDriveEngine

/-! ## Non-center lane sampling (Convertor::LaneSampling) -/

/-- opendrive::common::Split on the underscore separator, on an explicit
character list (structural, so that concrete runs evaluate). -/
def splitCharsAux : List Char → List Char → List String
  | [], acc => [String.mk acc.reverse]
  | c :: rest, acc =>
    if c = '_' then String.mk acc.reverse :: splitCharsAux rest []
    else splitCharsAux rest (c :: acc)

def splitUnd (s : String) : List String :=
  splitCharsAux s.data []

/-- Lexicographic comparison of character lists, the semantics of the C++
std::string operator<. -/
def strLtB : List Char → List Char → Bool
  | [], [] => false
  | [], _ :: _ => true
  | _ :: _, [] => false
  | a :: as, b :: bs => if a < b then true else if b < a then false else strLtB as bs

/-- The lane direction test of Convertor::LaneSampling: the third
underscore-separated component of the lane id is compared against the
string of the center lane index, so left lanes (positive local index)
get +1 and right lanes (negative local index) get -1. -/
def laneDir (laneId : String) : Int :=
  if strLtB ("0".data) ((splitUnd laneId).getD 2 ("")).data then 1 else -1

/-- The body of the per-reference-point loop of Convertor::LaneSampling:
for each reference point three points are produced, all at the reference
arc-length — the reference point itself with id suffix 1 (left
boundary), the reference point shifted by half the signed width with
suffix 2 (central curve, also the kd-tree sample), and the reference
point shifted by the full signed width with suffix 3 (right
boundary). -/
def laneSamplingGo (om : OffsetModel) (ele : EleLane) (laneId : String) (dir : Int) :
    List Pt → ℕ → List Pt × List Pt × List Pt
  | [], _ => ([], [], [])
  | rp :: rest, idx =>
    let w := ele.getLaneWidth rp.s * (dir : ℚ)
    let pid := laneId ++ "_" ++ toString idx
    let lpt : Pt := { rp with id := pid ++ "_1" }
    let cpt : Pt := { offsetPt om rp (w / 2) with id := pid ++ "_2" }
    let rpt : Pt := { offsetPt om rp w with id := pid ++ "_3" }
    let r := laneSamplingGo om ele laneId dir rest (idx + 1)
    (lpt :: r.1, cpt :: r.2.1, rpt :: r.2.2)

/-- Convertor::LaneSampling: appends the three point sequences to the
lane's curves and returns the central-curve points, which the C++ code
hands to AppendKDTreeSample one by one. -/
def laneSampling (om : OffsetModel) (ele : EleLane) (lane : CoreLane) (ref : List Pt) :
    CoreLane × List Pt :=
  let dir := laneDir lane.id
  let r := laneSamplingGo om ele lane.id dir ref 0
  ({ lane with
      leftB := lane.leftB ++ r.1
      central := lane.central ++ r.2.1
      rightB := lane.rightB ++ r.2.2 }, r.2.1)

/-- Two laterally adjacent lanes are stitched: the outer lane's left
boundary has the same length as the inner lane's right boundary and
coincides with it pointwise in x, y and arc-length position (the ids
differ). -/
def laneStitched (a b : CoreLane) : Prop :=
  b.leftB.length = a.rightB.length ∧
  ∀ i, i < a.rightB.length →
    (b.leftB.getD i pt0).x = (a.rightB.getD i pt0).x ∧
    (b.leftB.getD i pt0).y = (a.rightB.getD i pt0).y ∧
    (b.leftB.getD i pt0).s = (a.rightB.getD i pt0).s

/-! ## Section conversion (Convertor::ConvertSection) -/

/-- One side-lane loop of Convertor::ConvertSection. The clb argument is
the current content of the storage the C++ reference refe_line is bound
to (the center lane's left-boundary vector): each iteration samples the
new lane from that content, then copy-assigns the lane's right boundary
into the storage. Returns the lanes in order, the final storage content,
the kd-tree samples in append order, and the (id, lane) pairs inserted
into the repository lane map. -/
def sideLanesGo (om : OffsetModel) (secId : String) :
    List EleLane → List Pt → List CoreLane × List Pt × List Pt × List (String × CoreLane)
  | [], clb => ([], clb, [], [])
  | el :: rest, clb =>
    let lid := secId ++ "_" ++ toString el.id
    let lane0 : CoreLane := { id := lid, parentId := secId }
    let r1 := laneSampling om el lane0 clb
    let r := sideLanesGo om secId rest r1.1.rightB
    (r1.1 :: r.1, r.2.1, r1.2 ++ r.2.2.1, (lid, r1.1) :: r.2.2.2)

def insMany {α : Type} (ps : List (String × α)) (m : List (String × α)) : List (String × α) :=
  ps.foldl (fun acc p => mapInsert p.1 p.2 acc) m

/-- The per-section loop of Convertor::ConvertSection. The repository
maps receive the final values of the section and lane objects, because
the C++ code stores shared pointers and keeps mutating through them
after insertion. A section whose center lane group does not hold exactly
one lane records the conversion error and stops the section loop of this
road (the partially built section has already been inserted). Because
refe_line is a C++ reference into the center lane's left-boundary
vector, the reassignments inside the side-lane loops copy into that
vector: after the left loop the vector holds the last left lane's right
boundary, the line before the right loop copies the center lane's right
boundary over it, and after the right loop it holds the last right
lane's right boundary — so the center lane's final left boundary is the
final storage content of the right-lane loop. -/
def convertSectionsGo (om : OffsetModel) (geos : List EleGeometry)
    (offs : List EleLaneOffset) (roadId : String) :
    List EleLaneSection → ℕ → ℚ → CoreRoad → Convertor → CoreRoad × Convertor
  | [], _, _, road, c => (road, c)
  | es :: rest, idx, rd, road, c =>
    let secId := roadId ++ "_" ++ toString idx
    if es.center.length ≠ 1 then
      let sec : CoreSection :=
        { id := secId, parentId := roadId, sStart := es.sStart, sEnd := es.sEnd,
          slength := es.sEnd - es.sStart }
      let road' := { road with sections := road.sections ++ [sec] }
      let c' :=
        { c with
          status := { code := ErrCode.CONVERTOR_CENTERLANE_ERROR,
                      msg := secId ++ " center lane size not equal 1." }
          data := { c.data with sections := mapInsert secId sec c.data.sections } }
      (road', c')
    else
      let lane0 : CoreLane := { id := secId ++ "_0", parentId := secId }
      let out := centerLaneSampling om geos offs (es.sEnd - es.sStart) lane0 rd c.stp c.status
      let rl := sideLanesGo om secId es.left out.lane.leftB
      let rr := sideLanesGo om secId es.right out.lane.rightB
      let center := { out.lane with leftB := rr.2.1 }
      let sec : CoreSection :=
        { id := secId, parentId := roadId, sStart := es.sStart, sEnd := es.sEnd,
          slength := es.sEnd - es.sStart, centerLane := some center,
          leftLanes := rl.1, rightLanes := rr.1 }
      let road' := { road with sections := road.sections ++ [sec] }
      let c' :=
        { c with
          status := out.status
          centerLinePts := c.centerLinePts ++ rl.2.2.1 ++ rr.2.2.1
          data :=
            { c.data with
              sections := mapInsert secId sec c.data.sections
              lanes := insMany ((secId ++ "_0", center) :: (rl.2.2.2 ++ rr.2.2.2)) c.data.lanes } }
      convertSectionsGo om geos offs roadId rest (idx + 1) out.roadDs road' c'

/-- Convertor::ConvertSection: gated on the still-ok flag; the road-local
arc-length cursor starts at 0 for each road and is threaded through the
sections. -/
def convertSection (om : OffsetModel) (c : Convertor) (er : EleRoad) (road : CoreRoad) :
    CoreRoad × Convertor :=
  if ¬ stillOk c then (road, c)
  else convertSectionsGo om er.geometrys er.laneOffsets (toString er.id) er.laneSections 0 0 road c

/-! ## Road, junction, header stages -/

/-- Convertor::ConvertRoadAttr: gated on the still-ok flag. -/
def convertRoadAttr (c : Convertor) (er : EleRoad) (road : CoreRoad) : CoreRoad :=
  if ¬ stillOk c then road
  else
    { road with
      id := toString er.id
      name := er.name
      junctionId := toString er.junctionId
      rlength := er.rlength
      rule := er.rule
      predecessorIds :=
        if er.link.predecessorId ≠ -1 then road.predecessorIds ++ [toString er.link.predecessorId]
        else road.predecessorIds
      successorIds :=
        if er.link.successorId ≠ -1 then road.successorIds ++ [toString er.link.successorId]
        else road.successorIds
      info := road.info ++ er.typeInfo.map (fun ti => { s := ti.startPosition, rtype := ti.rtype }) }

/-- The body of the road loop of Convertor::ConvertRoad: roads with a
negative source id are skipped; otherwise the attribute and section
stages run (each gated on the still-ok flag) and the road is inserted
into the repository map unconditionally — also when an error has already
been recorded, in which case the road object still has its default
(empty) id. -/
def convertRoadStep (om : OffsetModel) (c : Convertor) (er : EleRoad) : Convertor :=
  if er.id < 0 then c
  else
    let road1 := convertRoadAttr c er {}
    let r := convertSection om c er road1
    { r.2 with data := { r.2.data with roads := mapInsert r.1.id r.1 r.2.data.roads } }

/-- Convertor::ConvertRoad. -/
def convertRoad (om : OffsetModel) (c : Convertor) (m : EleMap) : Convertor :=
  if ¬ stillOk c then c else m.roads.foldl (convertRoadStep om) c

/-- Convertor::ConvertJunctionAttr: gated on the still-ok flag. -/
def convertJunctionAttr (c : Convertor) (ej : EleJunction) (j : CoreJunction) : CoreJunction :=
  if ¬ stillOk c then j
  else { j with id := toString ej.id, name := ej.name, jtype := ej.jtype }

/-- The body of the junction loop of Convertor::ConvertJunction:
junctions with a negative source id are skipped. -/
def convertJunctionStep (c : Convertor) (ej : EleJunction) : Convertor :=
  if ej.id < 0 then c
  else
    let j := convertJunctionAttr c ej {}
    { c with data := { c.data with junctions := mapInsert j.id j c.data.junctions } }

/-- Convertor::ConvertJunction. -/
def convertJunction (c : Convertor) (m : EleMap) : Convertor :=
  if ¬ stillOk c then c else m.junctions.foldl convertJunctionStep c

/-- Convertor::ConvertHeader: gated on the still-ok flag. -/
def convertHeader (c : Convertor) (m : EleMap) : Convertor :=
  if ¬ stillOk c then c
  else
    let h : CoreHeader :=
      { revMajor := m.header.revMajor, revMinor := m.header.revMinor,
        name := m.header.name, version := m.header.version, date := m.header.date,
        north := m.header.north, south := m.header.south, west := m.header.west,
        east := m.header.east, vendor := m.header.vendor }
    { c with data := { c.data with header := some h } }

/-- Convertor::BuildKDTree: gated on the still-ok flag; rebuilds the
index from the accumulated flat centerline-point collection. -/
def buildKDTree (c : Convertor) : Convertor :=
  if ¬ stillOk c then c else { c with kdtreePts := c.centerLinePts }

/-- Convertor::End: gated on the still-ok flag; swaps the accumulated
collection with an empty one. -/
def endStage (c : Convertor) : Convertor :=
  if ¬ stillOk c then c else { c with centerLinePts := [] }

/-! ## Convertor::Start -/

/-- The engine configuration object: the requested sampling step and the
map file (file lookup and parsing are external, collapsed into the
optional parsed map below). -/
structure EngineParam where
  step : ℚ := 0
  mapFile : String := ""

/-- Convertor::Start. The flat centerline-point collection is cleared
before anything else; a missing collaborator records the factory error;
the step is floor-clamped to 1/10; the status is reset to ok; a missing
or unparsable map file records the map-file error; otherwise the
pipeline stages run in sequence and the final state (whose status the
C++ function returns) is produced. -/
def start (om : OffsetModel) (c : Convertor) (param : Option EngineParam)
    (parsed : Option EleMap) : Convertor :=
  let c0 := { c with centerLinePts := [] }
  match param with
  | none => { c0 with status := { code := ErrCode.INIT_FACTORY_ERROR, msg := "factory error." } }
  | some p =>
    let c1 := { c0 with stp := max (1 / 10) p.step }
    let c2 := { c1 with status := { code := ErrCode.OK, msg := "ok" } }
    match parsed with
    | none =>
      { c2 with status := { code := ErrCode.INIT_MAPFILE_ERROR,
                            msg := "input file error: " ++ p.mapFile } }
    | some m =>
      endStage (buildKDTree (convertJunction (convertRoad om (convertHeader c2 m) m) m))

end OpenDriveEngine

namespace OpenDriveEngine

/-! ## Concrete instances used by witnesses and failing-input evaluations -/

/-- A concrete offset model: the lateral direction is the positive y
axis regardless of heading (a straight east-bound reference line). -/
def om0 : OffsetModel := ⟨fun _ => 0, fun _ => 1⟩

/-- One geometry segment covering road arc-lengths below 100, evaluating
to the point (s, 0) with heading 0. -/
def geos0 : List EleGeometry :=
  [{ sStart := 0, sEnd := 100, gtype := 0, getPoint := fun q => { x := q } }]

/-- The center lane object of section 1_0 as ConvertSection creates it. -/
def lane00 : CoreLane := { id := "1_0_0", parentId := "1_0" }

def eleCenterLane : EleLane := { id := 0 }

def p0 : EngineParam := { step := 1 / 10, mapFile := "m" }

/-- A one-road map: road 1 has a single section of length 1/5 with one
center lane and one right lane of constant width 2. -/
def map5 : EleMap :=
  { roads := [{ id := 1, geometrys := geos0,
                laneSections := [{ sStart := 0, sEnd := 1 / 5,
                                   center := [eleCenterLane], left := [],
                                   right := [{ id := -1, getLaneWidth := fun _ => 2 }] }] }] }

def r5 : Convertor := start om0 {} (some p0) (some map5)

def cl5 : CoreLane :=
  ((mapLookup ("1_0") r5.data.sections).getD {}).centerLane.getD {}

/-- A two-road map: road 1 has a section with an empty center lane group
(the conversion error of the spec example), road 2 is well-formed. -/
def map3 : EleMap :=
  { roads := [{ id := 1, geometrys := geos0,
                laneSections := [{ sStart := 0, sEnd := 1 / 5,
                                   center := [], left := [], right := [] }] },
              { id := 2, geometrys := geos0,
                laneSections := [{ sStart := 0, sEnd := 1 / 5,
                                   center := [eleCenterLane], left := [], right := [] }] }] }

def r3 : Convertor := start om0 {} (some p0) (some map3)

/-- The kd-tree example points of the spec: (0,0) a, (1,0) b, (5,0) c. -/
def pa : SamplePt := { x := 0, y := 0, id := "a" }

def pb : SamplePt := { x := 1, y := 0, id := "b" }

def pc : SamplePt := { x := 5, y := 0, id := "c" }

end OpenDriveEngine

namespace OpenDriveEngine

/-! ## Helper lemmas about the sampling loop -/

section SampleLoopEqns

variable (om : OffsetModel) (geos : List EleGeometry) (offs : List EleLaneOffset) (L stp : ℚ)

lemma sampleLoop_zero (sds rd : ℚ) (idx : ℕ) (gty : Int) (lane : CoreLane) (st : Status) :
    sampleLoop om geos offs L stp 0 sds rd idx gty lane st = ⟨lane, rd, st, false⟩ := rfl

lemma sampleLoop_succ_break {sds0 rd0 : ℚ} {idx : ℕ} {gty : Int} {lane : CoreLane}
    {st : Status} (n : ℕ) (h1 : sds0 > L) (h2 : sds0 - L ≥ stp - tol) :
    sampleLoop om geos offs L stp (n + 1) sds0 rd0 idx gty lane st = ⟨lane, rd0, st, true⟩ := by
  simp [sampleLoop, h1, h2]

lemma sampleLoop_succ_fail {sds0 rd0 : ℚ} {idx : ℕ} {gty : Int} {lane : CoreLane}
    {st st' : Status} (n : ℕ) (h1 : ¬ sds0 > L)
    (hg : getGeometry geos rd0 st = (none, st')) :
    sampleLoop om geos offs L stp (n + 1) sds0 rd0 idx gty lane st = ⟨lane, rd0, st', true⟩ := by
  simp [sampleLoop, h1, hg]

lemma sampleLoop_succ_emit {sds0 rd0 : ℚ} {idx : ℕ} {gty : Int} {lane : CoreLane}
    {st st' : Status} {g : EleGeometry} (n : ℕ) (h1 : ¬ sds0 > L)
    (hg : getGeometry geos rd0 st = (some g, st')) :
    sampleLoop om geos offs L stp (n + 1) sds0 rd0 idx gty lane st =
      sampleLoop om geos offs L stp n (sds0 + stp) (rd0 + stp) (idx + 1) ((g.gtype : Int))
        (emitLane om offs g rd0 sds0 idx gty lane) st' := by
  simp [sampleLoop, h1, hg]

lemma sampleLoop_succ_clamp_fail {sds0 rd0 : ℚ} {idx : ℕ} {gty : Int} {lane : CoreLane}
    {st st' : Status} (n : ℕ) (h1 : sds0 > L) (h2 : ¬ sds0 - L ≥ stp - tol)
    (hg : getGeometry geos rd0 st = (none, st')) :
    sampleLoop om geos offs L stp (n + 1) sds0 rd0 idx gty lane st = ⟨lane, rd0, st', true⟩ := by
  simp [sampleLoop, h1, h2, hg]

lemma sampleLoop_succ_clamp_emit {sds0 rd0 : ℚ} {idx : ℕ} {gty : Int} {lane : CoreLane}
    {st st' : Status} {g : EleGeometry} (n : ℕ) (h1 : sds0 > L) (h2 : ¬ sds0 - L ≥ stp - tol)
    (hg : getGeometry geos rd0 st = (some g, st')) :
    sampleLoop om geos offs L stp (n + 1) sds0 rd0 idx gty lane st =
      sampleLoop om geos offs L stp n (L + stp) (rd0 + stp) (idx + 1) ((g.gtype : Int))
        (emitLane om offs g rd0 L idx gty lane) st' := by
  simp [sampleLoop, h1, h2, hg]

end SampleLoopEqns

lemma mkSamplePoint_s (om : OffsetModel) (offs : List EleLaneOffset) (refe : RawPt)
    (rd sds : ℚ) (laneId : String) (idx : ℕ) :
    (mkSamplePoint om offs refe rd sds laneId idx).s = sds := by
  by_cases h : getLaneOffsetValue offs rd ≠ 0 <;> simp [mkSamplePoint, h]

lemma geomFindIdx_lt_length (geos : List EleGeometry) (q : ℚ) :
    geomFindIdx geos q < (geos.length : Int) := by
  induction geos with
  | nil => simp [geomFindIdx]
  | cons g rest ih =>
    simp only [geomFindIdx, List.length_cons]
    split
    · push_cast; omega
    · split
      · push_cast; omega
      · push_cast; push_cast at ih; omega

lemma getGeometry_some (geos : List EleGeometry) (rd : ℚ) (st : Status)
    (h : 0 ≤ geomFindIdx geos rd) :
    ∃ g, getGeometry geos rd st = (some g, st) := by
  have hlt := geomFindIdx_lt_length geos rd
  have hnat : (geomFindIdx geos rd).toNat < geos.length := by omega
  refine ⟨geos[(geomFindIdx geos rd).toNat], ?_⟩
  unfold getGeometry
  rw [if_neg (by omega), if_pos hlt, List.getElem?_eq_getElem hnat]

end OpenDriveEngine

namespace OpenDriveEngine

lemma tol_pos : (0 : ℚ) < tol := by norm_num [tol]

lemma emitLane_central (om : OffsetModel) (offs : List EleLaneOffset) (g : EleGeometry)
    (rd sds : ℚ) (idx : ℕ) (gty : Int) (lane : CoreLane) :
    (emitLane om offs g rd sds idx gty lane).central =
      lane.central ++ [mkSamplePoint om offs (g.getPoint rd) rd sds lane.id idx] := rfl

lemma sampleLoop_central_append (om : OffsetModel) (geos : List EleGeometry)
    (offs : List EleLaneOffset) (L stp : ℚ) :
    ∀ (n : ℕ) (sds rd : ℚ) (idx : ℕ) (gty : Int) (lane : CoreLane) (st : Status),
      ∃ t, (sampleLoop om geos offs L stp n sds rd idx gty lane st).lane.central =
        lane.central ++ t := by
  intro n
  induction n with
  | zero =>
    intro sds rd idx gty lane st
    exact ⟨[], by simp [sampleLoop_zero]⟩
  | succ n ih =>
    intro sds rd idx gty lane st
    by_cases h1 : sds > L
    · by_cases h2 : sds - L ≥ stp - tol
      · exact ⟨[], by rw [sampleLoop_succ_break om geos offs L stp n h1 h2]; simp⟩
      · rcases hg : getGeometry geos rd st with ⟨og, st'⟩
        cases og with
        | none =>
          exact ⟨[], by rw [sampleLoop_succ_clamp_fail om geos offs L stp n h1 h2 hg]; simp⟩
        | some g =>
          obtain ⟨t, ht⟩ := ih (L + stp) (rd + stp) (idx + 1) ((g.gtype : Int))
            (emitLane om offs g rd L idx gty lane) st'
          refine ⟨mkSamplePoint om offs (g.getPoint rd) rd L lane.id idx :: t, ?_⟩
          rw [sampleLoop_succ_clamp_emit om geos offs L stp n h1 h2 hg, ht,
            emitLane_central, List.append_assoc]
          rfl
    · rcases hg : getGeometry geos rd st with ⟨og, st'⟩
      cases og with
      | none =>
        exact ⟨[], by rw [sampleLoop_succ_fail om geos offs L stp n h1 hg]; simp⟩
      | some g =>
        obtain ⟨t, ht⟩ := ih (sds + stp) (rd + stp) (idx + 1) ((g.gtype : Int))
          (emitLane om offs g rd sds idx gty lane) st'
        refine ⟨mkSamplePoint om offs (g.getPoint rd) rd sds lane.id idx :: t, ?_⟩
        rw [sampleLoop_succ_emit om geos offs L stp n h1 hg, ht,
          emitLane_central, List.append_assoc]
        rfl

lemma sampleLoop_sorted (om : OffsetModel) (geos : List EleGeometry)
    (offs : List EleLaneOffset) (L stp : ℚ) (hstp : 0 ≤ stp) :
    ∀ (n : ℕ) (sds rd : ℚ) (idx : ℕ) (gty : Int) (lane : CoreLane) (st : Status),
      List.Pairwise (fun a b : Pt => a.s ≤ b.s) lane.central →
      (∀ p ∈ lane.central, p.s ≤ L ∧ p.s ≤ sds) →
      List.Pairwise (fun a b : Pt => a.s ≤ b.s)
        (sampleLoop om geos offs L stp n sds rd idx gty lane st).lane.central := by
  intro n
  induction n with
  | zero =>
    intro sds rd idx gty lane st hp _
    simpa [sampleLoop_zero] using hp
  | succ n ih =>
    intro sds rd idx gty lane st hp hb
    by_cases h1 : sds > L
    · by_cases h2 : sds - L ≥ stp - tol
      · rw [sampleLoop_succ_break om geos offs L stp n h1 h2]
        exact hp
      · rcases hg : getGeometry geos rd st with ⟨og, st'⟩
        cases og with
        | none =>
          rw [sampleLoop_succ_clamp_fail om geos offs L stp n h1 h2 hg]
          exact hp
        | some g =>
          rw [sampleLoop_succ_clamp_emit om geos offs L stp n h1 h2 hg]
          apply ih
          · rw [emitLane_central, List.pairwise_append]
            refine ⟨hp, by simp, ?_⟩
            intro a ha b hbm
            simp only [List.mem_singleton] at hbm
            subst hbm
            rw [mkSamplePoint_s]
            exact (hb a ha).1
          · intro p hpm
            rw [emitLane_central] at hpm
            rcases List.mem_append.1 hpm with hold | hnew
            · exact ⟨(hb p hold).1, by linarith [(hb p hold).1]⟩
            · simp only [List.mem_singleton] at hnew
              subst hnew
              rw [mkSamplePoint_s]
              exact ⟨le_refl L, by linarith⟩
    · rcases hg : getGeometry geos rd st with ⟨og, st'⟩
      cases og with
      | none =>
        rw [sampleLoop_succ_fail om geos offs L stp n h1 hg]
        exact hp
      | some g =>
        push_neg at h1
        rw [sampleLoop_succ_emit om geos offs L stp n (not_lt.2 h1) hg]
        apply ih
        · rw [emitLane_central, List.pairwise_append]
          refine ⟨hp, by simp, ?_⟩
          intro a ha b hbm
          simp only [List.mem_singleton] at hbm
          subst hbm
          rw [mkSamplePoint_s]
          exact (hb a ha).2
        · intro p hpm
          rw [emitLane_central] at hpm
          rcases List.mem_append.1 hpm with hold | hnew
          · exact ⟨(hb p hold).1, by linarith [(hb p hold).2]⟩
          · simp only [List.mem_singleton] at hnew
            subst hnew
            rw [mkSamplePoint_s]
            exact ⟨h1, by linarith⟩

lemma sampleLoop_done (om : OffsetModel) (geos : List EleGeometry)
    (offs : List EleLaneOffset) (L stp : ℚ) (hstp : 1 / 10 ≤ stp) :
    ∀ (n : ℕ) (sds rd : ℚ) (idx : ℕ) (gty : Int) (lane : CoreLane) (st : Status),
      1 ≤ n → L - sds + 2 * stp ≤ (n : ℚ) * stp →
      (sampleLoop om geos offs L stp n sds rd idx gty lane st).done = true := by
  have hstp0 : (0 : ℚ) < stp := by linarith
  intro n
  induction n with
  | zero => intro sds rd idx gty lane st h1 _; omega
  | succ n ih =>
    intro sds rd idx gty lane st _ harith
    by_cases h1 : sds > L
    · by_cases h2 : sds - L ≥ stp - tol
      · rw [sampleLoop_succ_break om geos offs L stp n h1 h2]
      · rcases hg : getGeometry geos rd st with ⟨og, st'⟩
        cases og with
        | none => rw [sampleLoop_succ_clamp_fail om geos offs L stp n h1 h2 hg]
        | some g =>
          rw [sampleLoop_succ_clamp_emit om geos offs L stp n h1 h2 hg]
          push_neg at h2
          have hn1 : 1 ≤ n := by
            rcases Nat.eq_zero_or_pos n with h0 | h0
            · subst h0
              exfalso
              push_cast at harith
              have := tol_pos
              linarith
            · exact h0
          apply ih _ _ _ _ _ _ hn1
          have hcast : (1 : ℚ) ≤ (n : ℚ) := by exact_mod_cast hn1
          have : stp ≤ (n : ℚ) * stp := by nlinarith
          linarith
    · rcases hg : getGeometry geos rd st with ⟨og, st'⟩
      cases og with
      | none => rw [sampleLoop_succ_fail om geos offs L stp n h1 hg]
      | some g =>
        rw [sampleLoop_succ_emit om geos offs L stp n h1 hg]
        push_neg at h1
        have hn1 : 1 ≤ n := by
          rcases Nat.eq_zero_or_pos n with h0 | h0
          · subst h0
            exfalso
            push_cast at harith
            linarith
          · exact h0
        apply ih _ _ _ _ _ _ hn1
        push_cast at harith ⊢
        linarith

end OpenDriveEngine

namespace OpenDriveEngine

lemma sampleLoop_head (om : OffsetModel) (geos : List EleGeometry)
    (offs : List EleLaneOffset) {L rd0 : ℚ} (stp : ℚ) {st st' : Status} {g : EleGeometry}
    (hL : 0 ≤ L) (n : ℕ) (idx : ℕ) (gty : Int) (lane : CoreLane)
    (hc : lane.central = []) (hg : getGeometry geos rd0 st = (some g, st')) :
    ∃ p, (sampleLoop om geos offs L stp (n + 1) 0 rd0 idx gty lane st).lane.central.head? =
      some p ∧ p.s = 0 := by
  have h1 : ¬ (0 : ℚ) > L := not_lt.2 hL
  rw [sampleLoop_succ_emit om geos offs L stp n h1 hg]
  obtain ⟨t, ht⟩ := sampleLoop_central_append om geos offs L stp n (0 + stp) (rd0 + stp)
    (idx + 1) ((g.gtype : Int)) (emitLane om offs g rd0 0 idx gty lane) st'
  refine ⟨mkSamplePoint om offs (g.getPoint rd0) rd0 0 lane.id idx, ?_, mkSamplePoint_s _ _ _ _ _ _ _⟩
  rw [ht, emitLane_central, hc]
  simp

lemma sampleLoop_last (om : OffsetModel) (geos : List EleGeometry)
    (offs : List EleLaneOffset) {L stp rd0 : ℚ} (hstp : 1 / 10 ≤ stp) (hL : 0 ≤ L)
    (hcov : ∀ q, q < rd0 + L + stp → 0 ≤ geomFindIdx geos q)
    (htol : ∀ j : ℕ, (j : ℚ) * stp < L → (j : ℚ) * stp < L - tol) :
    ∀ (n : ℕ) (j : ℕ) (idx : ℕ) (gty : Int) (lane : CoreLane) (st : Status),
      (j : ℚ) * stp ≤ L →
      (sampleLoop om geos offs L stp n ((j : ℚ) * stp) (rd0 + (j : ℚ) * stp) idx gty lane st).done
        = true →
      ∃ p, (sampleLoop om geos offs L stp n ((j : ℚ) * stp) (rd0 + (j : ℚ) * stp)
          idx gty lane st).lane.central.getLast? = some p ∧ p.s = L := by
  have hstp0 : (0 : ℚ) < stp := by linarith
  intro n
  induction n with
  | zero =>
    intro j idx gty lane st hj hdone
    rw [sampleLoop_zero] at hdone
    simp at hdone
  | succ n ih =>
    intro j idx gty lane st hj hdone
    have h1 : ¬ ((j : ℚ) * stp > L) := not_lt.2 hj
    have hq : rd0 + (j : ℚ) * stp < rd0 + L + stp := by linarith
    obtain ⟨g, hg⟩ := getGeometry_some geos (rd0 + (j : ℚ) * stp) st (hcov _ hq)
    rw [sampleLoop_succ_emit om geos offs L stp n h1 hg] at hdone ⊢
    have hsds : (j : ℚ) * stp + stp = ((j + 1 : ℕ) : ℚ) * stp := by push_cast; ring
    have hrd : rd0 + (j : ℚ) * stp + stp = rd0 + ((j + 1 : ℕ) : ℚ) * stp := by push_cast; ring
    rw [hsds, hrd] at hdone ⊢
    by_cases hj1 : ((j + 1 : ℕ) : ℚ) * stp ≤ L
    · exact ih (j + 1) _ _ _ _ hj1 hdone
    · push_neg at hj1
      cases n with
      | zero =>
        rw [sampleLoop_zero] at hdone
        simp at hdone
      | succ m =>
        by_cases h2 : ((j + 1 : ℕ) : ℚ) * stp - L ≥ stp - tol
        · rw [sampleLoop_succ_break om geos offs L stp m hj1 h2]
          have hjL : (j : ℚ) * stp = L := by
            rcases eq_or_lt_of_le hj with h | h
            · exact h
            · exfalso
              have hlt := htol j h
              push_cast at h2
              linarith
          refine ⟨mkSamplePoint om offs (g.getPoint (rd0 + (j : ℚ) * stp))
            (rd0 + (j : ℚ) * stp) ((j : ℚ) * stp) lane.id idx, ?_, ?_⟩
          · rw [emitLane_central, List.getLast?_concat]
          · rw [mkSamplePoint_s]
            exact hjL
        · push_neg at h2
          have hjlt : (j : ℚ) * stp < L := by
            rcases eq_or_lt_of_le hj with h | h
            · exfalso
              push_cast at h2
              have hexp : ((j : ℚ) + 1) * stp = (j : ℚ) * stp + stp := by ring
              have := tol_pos
              linarith
            · exact h
          have hq2 : rd0 + ((j + 1 : ℕ) : ℚ) * stp < rd0 + L + stp := by
            push_cast
            linarith
          obtain ⟨g2, hg2⟩ := getGeometry_some geos (rd0 + ((j + 1 : ℕ) : ℚ) * stp) st (hcov _ hq2)
          rw [sampleLoop_succ_clamp_emit om geos offs L stp m hj1 (not_le.2 h2) hg2]
            at hdone ⊢
          cases m with
          | zero =>
            rw [sampleLoop_zero] at hdone
            simp at hdone
          | succ k =>
            have hb1 : L + stp > L := by linarith
            have hb2 : L + stp - L ≥ stp - tol := by
              have := tol_pos
              linarith
            rw [sampleLoop_succ_break om geos offs L stp k hb1 hb2]
            refine ⟨mkSamplePoint om offs (g2.getPoint (rd0 + ((j + 1 : ℕ) : ℚ) * stp))
              (rd0 + ((j + 1 : ℕ) : ℚ) * stp) L (emitLane om offs g
                (rd0 + (j : ℚ) * stp) ((j : ℚ) * stp) idx gty lane).id (idx + 1), ?_, ?_⟩
            · rw [emitLane_central, List.getLast?_concat]
            · rw [mkSamplePoint_s]

end OpenDriveEngine

namespace OpenDriveEngine

/-! ## Status bookkeeping lemmas -/

lemma getGeometry_snd_cases (geos : List EleGeometry) (rd : ℚ) (st : Status) :
    (getGeometry geos rd st).2 = st ∨ (getGeometry geos rd st).2 = geomErrStatus := by
  simp only [getGeometry]
  split_ifs <;> simp [geomErrStatus]

lemma sampleLoop_status_cases (om : OffsetModel) (geos : List EleGeometry)
    (offs : List EleLaneOffset) (L stp : ℚ) :
    ∀ (n : ℕ) (sds rd : ℚ) (idx : ℕ) (gty : Int) (lane : CoreLane) (st : Status),
      (sampleLoop om geos offs L stp n sds rd idx gty lane st).status = st ∨
      (sampleLoop om geos offs L stp n sds rd idx gty lane st).status = geomErrStatus := by
  intro n
  induction n with
  | zero => intro sds rd idx gty lane st; left; rfl
  | succ n ih =>
    intro sds rd idx gty lane st
    by_cases h1 : sds > L
    · by_cases h2 : sds - L ≥ stp - tol
      · rw [sampleLoop_succ_break om geos offs L stp n h1 h2]; left; rfl
      · rcases hg : getGeometry geos rd st with ⟨og, st'⟩
        have hcase : st' = st ∨ st' = geomErrStatus := by
          have := getGeometry_snd_cases geos rd st
          rw [hg] at this
          exact this
        cases og with
        | none =>
          rw [sampleLoop_succ_clamp_fail om geos offs L stp n h1 h2 hg]
          exact hcase
        | some g =>
          rw [sampleLoop_succ_clamp_emit om geos offs L stp n h1 h2 hg]
          rcases ih (L + stp) (rd + stp) (idx + 1) ((g.gtype : Int))
            (emitLane om offs g rd L idx gty lane) st' with h | h
          · rw [h]; exact hcase
          · right; exact h
    · rcases hg : getGeometry geos rd st with ⟨og, st'⟩
      have hcase : st' = st ∨ st' = geomErrStatus := by
        have := getGeometry_snd_cases geos rd st
        rw [hg] at this
        exact this
      cases og with
      | none =>
        rw [sampleLoop_succ_fail om geos offs L stp n h1 hg]
        exact hcase
      | some g =>
        rw [sampleLoop_succ_emit om geos offs L stp n h1 hg]
        rcases ih (sds + stp) (rd + stp) (idx + 1) ((g.gtype : Int))
          (emitLane om offs g rd sds idx gty lane) st' with h | h
        · rw [h]; exact hcase
        · right; exact h

lemma sampleLoop_indep (om : OffsetModel) (geos : List EleGeometry) (L stp : ℚ) :
    ∀ (n : ℕ) (sds rd : ℚ) (idx : ℕ) (gty : Int) (st : Status)
      (offs offs' : List EleLaneOffset) (lane lane' : CoreLane),
      (sampleLoop om geos offs L stp n sds rd idx gty lane st).status =
        (sampleLoop om geos offs' L stp n sds rd idx gty lane' st).status ∧
      (sampleLoop om geos offs L stp n sds rd idx gty lane st).roadDs =
        (sampleLoop om geos offs' L stp n sds rd idx gty lane' st).roadDs ∧
      (sampleLoop om geos offs L stp n sds rd idx gty lane st).done =
        (sampleLoop om geos offs' L stp n sds rd idx gty lane' st).done := by
  intro n
  induction n with
  | zero => intro sds rd idx gty st offs offs' lane lane'; exact ⟨rfl, rfl, rfl⟩
  | succ n ih =>
    intro sds rd idx gty st offs offs' lane lane'
    by_cases h1 : sds > L
    · by_cases h2 : sds - L ≥ stp - tol
      · rw [sampleLoop_succ_break om geos offs L stp n h1 h2,
          sampleLoop_succ_break om geos offs' L stp n h1 h2]
        exact ⟨rfl, rfl, rfl⟩
      · rcases hg : getGeometry geos rd st with ⟨og, st'⟩
        cases og with
        | none =>
          rw [sampleLoop_succ_clamp_fail om geos offs L stp n h1 h2 hg,
            sampleLoop_succ_clamp_fail om geos offs' L stp n h1 h2 hg]
          exact ⟨rfl, rfl, rfl⟩
        | some g =>
          rw [sampleLoop_succ_clamp_emit om geos offs L stp n h1 h2 hg,
            sampleLoop_succ_clamp_emit om geos offs' L stp n h1 h2 hg]
          exact ih _ _ _ _ _ offs offs' _ _
    · rcases hg : getGeometry geos rd st with ⟨og, st'⟩
      cases og with
      | none =>
        rw [sampleLoop_succ_fail om geos offs L stp n h1 hg,
          sampleLoop_succ_fail om geos offs' L stp n h1 hg]
        exact ⟨rfl, rfl, rfl⟩
      | some g =>
        rw [sampleLoop_succ_emit om geos offs L stp n h1 hg,
          sampleLoop_succ_emit om geos offs' L stp n h1 hg]
        exact ih _ _ _ _ _ offs offs' _ _

/-! ## Pipeline stage lemmas -/

lemma convertHeader_noop {c : Convertor} (m : EleMap) (h : ¬ stillOk c) :
    convertHeader c m = c := by
  simp [convertHeader, h]

lemma convertRoad_noop (om : OffsetModel) {c : Convertor} (m : EleMap) (h : ¬ stillOk c) :
    convertRoad om c m = c := by
  simp [convertRoad, h]

lemma convertJunction_noop {c : Convertor} (m : EleMap) (h : ¬ stillOk c) :
    convertJunction c m = c := by
  simp [convertJunction, h]

lemma buildKDTree_noop {c : Convertor} (h : ¬ stillOk c) : buildKDTree c = c := by
  simp [buildKDTree, h]

lemma endStage_noop {c : Convertor} (h : ¬ stillOk c) : endStage c = c := by
  simp [endStage, h]

lemma convertSection_noop (om : OffsetModel) {c : Convertor} (er : EleRoad) (road : CoreRoad)
    (h : ¬ stillOk c) : convertSection om c er road = (road, c) := by
  simp [convertSection, h]

lemma convertRoadAttr_noop {c : Convertor} (er : EleRoad) (road : CoreRoad)
    (h : ¬ stillOk c) : convertRoadAttr c er road = road := by
  simp [convertRoadAttr, h]

lemma convertSectionsGo_code (om : OffsetModel) (geos : List EleGeometry)
    (offs : List EleLaneOffset) (roadId : String) :
    ∀ (secs : List EleLaneSection) (idx : ℕ) (rd : ℚ) (road : CoreRoad) (c : Convertor),
      (convertSectionsGo om geos offs roadId secs idx rd road c).2.status.code = c.status.code ∨
      (convertSectionsGo om geos offs roadId secs idx rd road c).2.status.code =
        ErrCode.CONVERTOR_CENTERLANE_ERROR := by
  intro secs
  induction secs with
  | nil => intro idx rd road c; left; rfl
  | cons es rest ih =>
    intro idx rd road c
    by_cases hc : es.center.length ≠ 1
    · right
      simp only [convertSectionsGo, if_pos hc]
    · simp only [convertSectionsGo, if_neg hc]
      rcases ih (idx + 1)
        (centerLaneSampling om geos offs (es.sEnd - es.sStart)
          { id := (roadId ++ "_" ++ toString idx) ++ "_0",
            parentId := roadId ++ "_" ++ toString idx } rd c.stp c.status).roadDs _ _ with h | h
      · rw [h]
        have := sampleLoop_status_cases om geos offs (es.sEnd - es.sStart) c.stp
          (sampleFuel (es.sEnd - es.sStart) c.stp) 0 rd 0 (-1)
          { id := (roadId ++ "_" ++ toString idx) ++ "_0",
            parentId := roadId ++ "_" ++ toString idx, central := [] } c.status
        rcases this with h' | h'
        · left
          simp only [centerLaneSampling]
          rw [h']
        · right
          simp only [centerLaneSampling]
          rw [h']
          rfl
      · right
        rw [h]

end OpenDriveEngine

namespace OpenDriveEngine

lemma convertRoadStep_code (om : OffsetModel) (c : Convertor) (er : EleRoad) :
    (convertRoadStep om c er).status.code = c.status.code ∨
    (convertRoadStep om c er).status.code = ErrCode.CONVERTOR_CENTERLANE_ERROR := by
  by_cases hneg : er.id < 0
  · left
    simp [convertRoadStep, hneg]
  · simp only [convertRoadStep, if_neg hneg]
    by_cases hok : stillOk c
    · simp only [convertSection, if_neg (not_not.2 hok)]
      exact convertSectionsGo_code om er.geometrys er.laneOffsets (toString er.id)
        er.laneSections 0 0 (convertRoadAttr c er {}) c
    · rw [convertSection_noop om er _ hok]
      left
      rfl

lemma convertRoadsFold_code (om : OffsetModel) :
    ∀ (roads : List EleRoad) (c : Convertor),
      (roads.foldl (convertRoadStep om) c).status.code = c.status.code ∨
      (roads.foldl (convertRoadStep om) c).status.code = ErrCode.CONVERTOR_CENTERLANE_ERROR := by
  intro roads
  induction roads with
  | nil => intro c; left; rfl
  | cons er rest ih =>
    intro c
    rcases ih (convertRoadStep om c er) with h | h
    · rcases convertRoadStep_code om c er with h' | h'
      · left
        simpa [h'] using h
      · right
        simpa [h'] using h
    · right
      simpa using h

lemma convertRoad_code (om : OffsetModel) (c : Convertor) (m : EleMap) :
    (convertRoad om c m).status.code = c.status.code ∨
    (convertRoad om c m).status.code = ErrCode.CONVERTOR_CENTERLANE_ERROR := by
  by_cases h : stillOk c
  · simp only [convertRoad, if_neg (not_not.2 h)]
    exact convertRoadsFold_code om m.roads c
  · rw [convertRoad_noop om m h]
    left
    rfl

/-! ## Fuel arithmetic -/

lemma rat_le_num_toNat_succ (q : ℚ) : q ≤ ((q.num.toNat : ℚ) + 1) := by
  rcases le_or_lt q 0 with h | h
  · have : (0 : ℚ) ≤ (q.num.toNat : ℚ) := by positivity
    linarith
  · have hnum : 0 < q.num := Rat.num_pos.2 h
    have hq : q = (q.num : ℚ) / (q.den : ℚ) := (Rat.num_div_den q).symm
    have hden : (1 : ℚ) ≤ (q.den : ℚ) := by
      have := q.den_pos
      exact_mod_cast this
    have h1 : q ≤ (q.num : ℚ) := by
      have hd : q / (q.den : ℚ) ≤ q := div_le_self (le_of_lt h) hden
      calc q = (q.num : ℚ) / (q.den : ℚ) := (Rat.num_div_den q).symm
        _ ≤ (q.num : ℚ) := by
          apply div_le_self _ hden
          exact_mod_cast le_of_lt hnum
    have h2 : ((q.num.toNat : ℤ) : ℚ) = (q.num : ℚ) := by
      rw [Int.toNat_of_nonneg (le_of_lt hnum)]
    push_cast at h2
    linarith

lemma sampleFuel_ge (L stp : ℚ) (hstp : 1 / 10 ≤ stp) :
    L + 2 * stp ≤ (sampleFuel L stp : ℚ) * stp := by
  have hstp0 : (0 : ℚ) < stp := by linarith
  have h := rat_le_num_toNat_succ ((L + 2 * stp) / stp)
  have h2 : (L + 2 * stp) / stp * stp = L + 2 * stp := div_mul_cancel₀ _ (ne_of_gt hstp0)
  have h3 : ((L + 2 * stp) / stp) * stp ≤ ((((L + 2 * stp) / stp).num.toNat : ℚ) + 1) * stp :=
    mul_le_mul_of_nonneg_right h (le_of_lt hstp0)
  rw [h2] at h3
  have h4 : (sampleFuel L stp : ℚ) = (((L + 2 * stp) / stp).num.toNat : ℚ) + 1 := by
    simp [sampleFuel]
  rw [h4]
  exact h3

lemma sampleFuel_pos (L stp : ℚ) : 1 ≤ sampleFuel L stp := by
  simp [sampleFuel]

end OpenDriveEngine

namespace OpenDriveEngine

/-! ## Lane-sampling lemmas -/

lemma laneSamplingGo_spec (om : OffsetModel) (ele : EleLane) (laneId : String) (dir : Int) :
    ∀ (ref : List Pt) (idx0 : ℕ),
      (laneSamplingGo om ele laneId dir ref idx0).1.length = ref.length ∧
      (laneSamplingGo om ele laneId dir ref idx0).2.1.length = ref.length ∧
      (laneSamplingGo om ele laneId dir ref idx0).2.2.length = ref.length ∧
      ∀ i, i < ref.length →
        (laneSamplingGo om ele laneId dir ref idx0).1.getD i pt0 =
          { ref.getD i pt0 with id := laneId ++ "_" ++ toString (idx0 + i) ++ "_1" } ∧
        (laneSamplingGo om ele laneId dir ref idx0).2.1.getD i pt0 =
          { offsetPt om (ref.getD i pt0)
              (ele.getLaneWidth (ref.getD i pt0).s * (dir : ℚ) / 2) with
            id := laneId ++ "_" ++ toString (idx0 + i) ++ "_2" } ∧
        (laneSamplingGo om ele laneId dir ref idx0).2.2.getD i pt0 =
          { offsetPt om (ref.getD i pt0)
              (ele.getLaneWidth (ref.getD i pt0).s * (dir : ℚ)) with
            id := laneId ++ "_" ++ toString (idx0 + i) ++ "_3" } := by
  intro ref
  induction ref with
  | nil =>
    intro idx0
    refine ⟨rfl, rfl, rfl, ?_⟩
    intro i hi
    simp at hi
  | cons rp rest ih =>
    intro idx0
    obtain ⟨hl1, hl2, hl3, hidx⟩ := ih (idx0 + 1)
    refine ⟨by simp [laneSamplingGo, hl1], by simp [laneSamplingGo, hl2],
      by simp [laneSamplingGo, hl3], ?_⟩
    intro i hi
    cases i with
    | zero =>
      refine ⟨?_, ?_, ?_⟩ <;> simp [laneSamplingGo]
    | succ i =>
      have hi' : i < rest.length := by simpa using hi
      obtain ⟨e1, e2, e3⟩ := hidx i hi'
      have harith : idx0 + 1 + i = idx0 + (i + 1) := by omega
      refine ⟨?_, ?_, ?_⟩ <;>
        simp only [laneSamplingGo, List.getD_cons_succ] <;>
        rw [← harith]
      · exact e1
      · exact e2
      · exact e3

lemma laneSampling_fresh (om : OffsetModel) (ele : EleLane) (lid pid : String)
    (ref : List Pt) :
    (laneSampling om ele { id := lid, parentId := pid } ref).1.leftB.length = ref.length ∧
    (laneSampling om ele { id := lid, parentId := pid } ref).1.rightB.length = ref.length ∧
    ∀ i, i < ref.length →
      ((laneSampling om ele { id := lid, parentId := pid } ref).1.leftB.getD i pt0).x =
        (ref.getD i pt0).x ∧
      ((laneSampling om ele { id := lid, parentId := pid } ref).1.leftB.getD i pt0).y =
        (ref.getD i pt0).y ∧
      ((laneSampling om ele { id := lid, parentId := pid } ref).1.leftB.getD i pt0).s =
        (ref.getD i pt0).s := by
  obtain ⟨hl1, hl2, hl3, hidx⟩ := laneSamplingGo_spec om ele lid (laneDir lid) ref 0
  refine ⟨by simpa [laneSampling] using hl1, by simpa [laneSampling] using hl3, ?_⟩
  intro i hi
  obtain ⟨e1, _, _⟩ := hidx i hi
  have hleft : (laneSampling om ele { id := lid, parentId := pid } ref).1.leftB =
      (laneSamplingGo om ele lid (laneDir lid) ref 0).1 := by
    simp [laneSampling]
  rw [hleft, e1]
  exact ⟨rfl, rfl, rfl⟩

lemma sideLanesGo_chain (om : OffsetModel) (secId : String) :
    ∀ (els : List EleLane) (clb : List Pt),
      List.Chain' laneStitched (sideLanesGo om secId els clb).1 := by
  intro els
  induction els with
  | nil => intro clb; simp [sideLanesGo]
  | cons el rest ih =>
    intro clb
    cases rest with
    | nil =>
      simp only [sideLanesGo]
      exact List.chain'_singleton _
    | cons el2 rest2 =>
      simp only [sideLanesGo]
      rw [List.chain'_cons]
      constructor
      · obtain ⟨hlen, _, hco⟩ := laneSampling_fresh om el2
          (secId ++ "_" ++ toString el2.id) secId
          (laneSampling om el { id := secId ++ "_" ++ toString el.id, parentId := secId }
            clb).1.rightB
        exact ⟨hlen, fun i hi => (hco i hi)⟩
      · exact ih _

end OpenDriveEngine

namespace OpenDriveEngine

/-! ## kd-tree lemmas -/

lemma kdSearch_le (t : KDTreeAdaptor) (x y : ℚ) (k : ℕ) (resultsIn : List KDTreeResult)
    (h : k ≤ t.matrix.length) :
    kdSearch t x y k resultsIn =
      (0, (knnSearchModel t.matrix x y k).map (fun ip =>
        { x := (t.matrix.getD ip.1 (0, 0)).1
          y := (t.matrix.getD ip.1 (0, 0)).2
          id := t.ids.getD ip.1 ("")
          dist2 := ip.2 })) := by
  simp [kdSearch, not_lt.2 h]

lemma kdSearch_gt (t : KDTreeAdaptor) (x y : ℚ) (k : ℕ) (resultsIn : List KDTreeResult)
    (h : t.matrix.length < k) :
    kdSearch t x y k resultsIn = (-1, []) := by
  simp [kdSearch, h]

lemma knnSearchModel_length (matrix : List (ℚ × ℚ)) (x y : ℚ) (k : ℕ)
    (h : k ≤ matrix.length) :
    (knnSearchModel matrix x y k).length = k := by
  simp only [knnSearchModel, List.length_take, List.length_insertionSort, List.length_map,
    List.enum_length]
  omega

lemma knnSearchModel_sorted (matrix : List (ℚ × ℚ)) (x y : ℚ) (k : ℕ) :
    List.Pairwise (fun a b : ℕ × ℚ => a.2 ≤ b.2) (knnSearchModel matrix x y k) := by
  haveI : IsTotal (ℕ × ℚ) (fun a b => a.2 ≤ b.2) := ⟨fun a b => le_total a.2 b.2⟩
  haveI : IsTrans (ℕ × ℚ) (fun a b => a.2 ≤ b.2) := ⟨fun _ _ _ h1 h2 => le_trans h1 h2⟩
  have hs := List.sorted_insertionSort (fun a b : ℕ × ℚ => a.2 ≤ b.2)
    (matrix.enum.map (fun ip => (ip.1, sqDist ip.2.1 ip.2.2 x y)))
  exact List.Pairwise.sublist (List.take_sublist k _) hs

lemma knnSearchModel_mem (matrix : List (ℚ × ℚ)) (x y : ℚ) (k : ℕ) {ip : ℕ × ℚ}
    (h : ip ∈ knnSearchModel matrix x y k) :
    ip.1 < matrix.length ∧
    ip.2 = sqDist (matrix.getD ip.1 (0, 0)).1 (matrix.getD ip.1 (0, 0)).2 x y := by
  have h1 : ip ∈ List.insertionSort (fun a b : ℕ × ℚ => a.2 ≤ b.2)
      (matrix.enum.map (fun q => (q.1, sqDist q.2.1 q.2.2 x y))) := List.mem_of_mem_take h
  have h2 : ip ∈ matrix.enum.map (fun q => (q.1, sqDist q.2.1 q.2.2 x y)) :=
    (List.perm_insertionSort _ _).mem_iff.1 h1
  obtain ⟨⟨i, p⟩, hen, heq⟩ := List.mem_map.1 h2
  obtain ⟨hlt, hpe⟩ := List.mem_enum hen
  subst heq
  refine ⟨by simpa using hlt, ?_⟩
  have hgd : matrix.getD i (0, 0) = p := by
    rw [List.getD_eq_getElem?_getD, List.getElem?_eq_getElem hlt, ← hpe]
    rfl
  show sqDist p.1 p.2 x y = sqDist (matrix.getD i (0, 0)).1 (matrix.getD i (0, 0)).2 x y
  rw [hgd]

lemma adaptorInit_getD (samples : List SamplePt) (i : ℕ) (h : i < samples.length) :
    (adaptorInit samples).matrix.getD i (0, 0) =
      ((samples.getD i {}).x, (samples.getD i {}).y) ∧
    (adaptorInit samples).ids.getD i ("") = (samples.getD i {}).id := by
  have hg : samples[i]? = some samples[i] := List.getElem?_eq_getElem h
  have hs : samples.getD i {} = samples[i] := by
    rw [List.getD_eq_getElem?_getD, hg]
    rfl
  constructor <;>
    simp [adaptorInit, List.getD_eq_getElem?_getD, List.getElem?_map, hg, hs]

end OpenDriveEngine

namespace OpenDriveEngine

lemma getLaneOffsetValueWith_out (lookup : List EleLaneOffset → ℚ → Int)
    (offs : List EleLaneOffset) (rd : ℚ)
    (h : lookup offs rd < 0 ∨ (offs.length : Int) ≤ lookup offs rd) :
    getLaneOffsetValueWith lookup offs rd = 0 := by
  have hneg : ¬ (0 ≤ lookup offs rd ∧ lookup offs rd < (offs.length : Int)) := by
    rcases h with h | h <;> omega
  simp [getLaneOffsetValueWith, hneg]

/-! ## Claims -/

/-- C3: the claim states that after the first recorded error every later
pipeline stage is a no-op and no further sections, lanes or roads are
added to the repository. The code contradicts the last part: the road
loop of ConvertRoad keeps iterating after the error and unconditionally
inserts each remaining road — whose attribute stage was skipped, so it
still has its default empty id — into the repository road map. On map3
(road 1 fails the center-lane check, road 2 is well-formed) the final
state carries the first error unmodified, yet the road map has gained a
default-constructed road under the empty id, and holds 2 entries. -/
theorem claim_C3_eval :
    (start om0 {} (some p0) (some map3)).status =
      { code := ErrCode.CONVERTOR_CENTERLANE_ERROR,
        msg := "1_0 center lane size not equal 1." } ∧
    mapLookup ("") (start om0 {} (some p0) (some map3)).data.roads = some {} ∧
    (start om0 {} (some p0) (some map3)).data.roads.length = 2 ∧
    mapLookup ("2_0") (start om0 {} (some p0) (some map3)).data.sections = none := by
  with_unfolding_all decide

/-- C4: the claim states that when the final sample is clamped, the
road-local cursor is reduced by the clamped amount so the point is
evaluated at the road arc-length of the section end. In the code the
reduction subtracts (section_ds - length) after section_ds has already
been set to length, i.e. it subtracts zero. With the identity geometry
geos0 (point x equals the road arc-length), section length 1/4, step
1/10 and road cursor starting at 0, the clamped sample carries
section-local s = 1/4 but x = 3/10: it was evaluated at the overshot
road arc-length 3/10, not at 1/4, and the cursor leaves the section at
2/5 instead of 0.35 = 1/4 + 1/10. -/
theorem claim_C4_eval :
    (centerLaneSampling om0 geos0 [] (1 / 4) lane00 0 (1 / 10) {}).lane.central.getLast? =
      some { x := 3 / 10, y := 0, heading := 0, s := 1 / 4, id := "1_0_0_3" } ∧
    (centerLaneSampling om0 geos0 [] (1 / 4) lane00 0 (1 / 10) {}).roadDs = 2 / 5 := by
  with_unfolding_all decide

/-- C5: the claim states that after a successful section conversion the
center lane's central curve, left boundary and right boundary coincide
pointwise. In the code refe_line is a C++ reference bound to the center
lane's left-boundary vector, and the reassignments in the side-lane
loops copy-assign into that vector, so with at least one right lane the
center lane's left boundary ends up equal to the last right lane's
right boundary. On map5 (one section, one right lane of width 2) the
conversion succeeds, central and right boundary coincide, but the left
boundary equals the right lane's right boundary (offset by the full
lane width), not the central curve. -/
theorem claim_C5_eval :
    r5.status.code = ErrCode.OK ∧
    cl5.central = cl5.rightB ∧
    cl5.central ≠ cl5.leftB ∧
    cl5.leftB = (((mapLookup ("1_0") r5.data.sections).getD {}).rightLanes.getD 0 {}).rightB ∧
    cl5.leftB.map (fun p => p.y) = [-2, -2, -2] ∧
    cl5.central.map (fun p => p.y) = [0, 0, 0] := by
  with_unfolding_all decide

/-- C8: every road and junction whose source id is negative is silently
skipped: converting a map that starts with such an element equals
converting the map without it, converting a map holding only such an
element leaves the convertor state untouched (so nothing is inserted,
no entities derive from it, and the status — in particular an OK
status — is unchanged). -/
theorem claim_C8 :
    (∀ (om : OffsetModel) (c : Convertor) (hdr : EleHeader) (er : EleRoad)
       (rs : List EleRoad) (js : List EleJunction), er.id < 0 →
       convertRoad om c { header := hdr, roads := er :: rs, junctions := js } =
         convertRoad om c { header := hdr, roads := rs, junctions := js }) ∧
    (∀ (c : Convertor) (hdr : EleHeader) (rds : List EleRoad) (ej : EleJunction)
       (js : List EleJunction), ej.id < 0 →
       convertJunction c { header := hdr, roads := rds, junctions := ej :: js } =
         convertJunction c { header := hdr, roads := rds, junctions := js }) ∧
    (∀ (om : OffsetModel) (c : Convertor) (hdr : EleHeader) (er : EleRoad), er.id < 0 →
       convertRoad om c { header := hdr, roads := [er], junctions := [] } = c) ∧
    (∀ (c : Convertor) (hdr : EleHeader) (ej : EleJunction), ej.id < 0 →
       convertJunction c { header := hdr, roads := [], junctions := [ej] } = c) := by
  refine ⟨?_, ?_, ?_, ?_⟩
  · intro om c hdr er rs js hneg
    by_cases h : stillOk c
    · simp [convertRoad, h, convertRoadStep, hneg]
    · simp [convertRoad, h]
  · intro c hdr rds ej js hneg
    by_cases h : stillOk c
    · simp [convertJunction, h, convertJunctionStep, hneg]
    · simp [convertJunction, h]
  · intro om c hdr er hneg
    by_cases h : stillOk c
    · simp [convertRoad, h, convertRoadStep, hneg]
    · simp [convertRoad, h]
  · intro c hdr ej hneg
    by_cases h : stillOk c
    · simp [convertJunction, h, convertJunctionStep, hneg]
    · simp [convertJunction, h]

/-- C8 witness: a road and a junction with source id -1 are skipped on a
concrete otherwise-empty map with an ok convertor state. -/
theorem claim_C8_witness :
    ((-1 : Int) < 0) ∧
    convertRoad om0 {} { header := {}, roads := [{ id := -1 }], junctions := [] } = {} ∧
    convertJunction {} { header := {}, roads := [], junctions := [{ id := -1 }] } = {} :=
  ⟨by decide, (claim_C8.2.2.1 om0 {} {} { id := -1 } (by decide)),
    (claim_C8.2.2.2 {} {} { id := -1 } (by decide))⟩

/-- C9: an out-of-range lane-offset lookup index makes
GetLaneOffsetValue return exactly 0 (for any lookup function); with the
modelled lookup, an out-of-range index makes the sampled center-lane
point the raw reference point (zero lateral offset, the same fields the
zero-offset branch writes); and the sampling loop's status, final road
cursor and termination never depend on the lane-offset table at all, so
a missing table is never an error. -/
theorem claim_C9 :
    (∀ (lookup : List EleLaneOffset → ℚ → Int) (offs : List EleLaneOffset) (rd : ℚ),
       (lookup offs rd < 0 ∨ (offs.length : Int) ≤ lookup offs rd) →
       getLaneOffsetValueWith lookup offs rd = 0) ∧
    (∀ (om : OffsetModel) (offs : List EleLaneOffset) (refe : RawPt) (rd sds : ℚ)
       (laneId : String) (idx : ℕ),
       (offsetFindIdx offs rd < 0 ∨ (offs.length : Int) ≤ offsetFindIdx offs rd) →
       mkSamplePoint om offs refe rd sds laneId idx =
         { x := refe.x, y := refe.y, heading := refe.heading, s := sds,
           id := laneId ++ "_" ++ toString idx }) ∧
    (∀ (om : OffsetModel) (geos : List EleGeometry) (L stp : ℚ) (n : ℕ) (sds rd : ℚ)
       (idx : ℕ) (gty : Int) (st : Status) (offs offs' : List EleLaneOffset)
       (lane lane' : CoreLane),
       (sampleLoop om geos offs L stp n sds rd idx gty lane st).status =
         (sampleLoop om geos offs' L stp n sds rd idx gty lane' st).status ∧
       (sampleLoop om geos offs L stp n sds rd idx gty lane st).roadDs =
         (sampleLoop om geos offs' L stp n sds rd idx gty lane' st).roadDs ∧
       (sampleLoop om geos offs L stp n sds rd idx gty lane st).done =
         (sampleLoop om geos offs' L stp n sds rd idx gty lane' st).done) := by
  refine ⟨getLaneOffsetValueWith_out, ?_, ?_⟩
  · intro om offs refe rd sds laneId idx h
    have hz : getLaneOffsetValue offs rd = 0 := getLaneOffsetValueWith_out offsetFindIdx offs rd h
    simp [mkSamplePoint, hz]
  · intro om geos L stp n sds rd idx gty st offs offs' lane lane'
    exact sampleLoop_indep om geos L stp n sds rd idx gty st offs offs' lane lane'

/-- C9 witness: with an empty lane-offset table the lookup yields -1,
the offset value is 0 and the sampled point is the raw reference point. -/
theorem claim_C9_witness :
    (offsetFindIdx [] 0 < 0 ∨ (([] : List EleLaneOffset).length : Int) ≤ offsetFindIdx [] 0) ∧
    getLaneOffsetValueWith offsetFindIdx [] 0 = 0 ∧
    mkSamplePoint om0 [] { x := 7, y := 8, heading := 9 } 0 (1 / 2) ("1_0_0") 4 =
      { x := 7, y := 8, heading := 9, s := 1 / 2, id := "1_0_0_4" } :=
  ⟨Or.inl (by decide),
    claim_C9.1 offsetFindIdx [] 0 (Or.inl (by decide)),
    claim_C9.2.1 om0 [] { x := 7, y := 8, heading := 9 } 0 (1 / 2) ("1_0_0") 4
      (Or.inl (by decide))⟩

/-- C10: Start clears the flat centerline-point collection before any
conversion work, so its result never depends on the collection left
over from an earlier run; and when BuildKDTree runs (still-ok state)
the index is built from exactly the collection accumulated by the
current run. -/
theorem claim_C10 :
    (∀ (om : OffsetModel) (c : Convertor) (l : List Pt) (param : Option EngineParam)
       (parsed : Option EleMap),
       start om { c with centerLinePts := l } param parsed = start om c param parsed) ∧
    (∀ c : Convertor, stillOk c → (buildKDTree c).kdtreePts = c.centerLinePts) := by
  constructor
  · intro om c l param parsed
    rfl
  · intro c h
    simp [buildKDTree, h]

/-- C10 witness: on the concrete map5 run, seeding the convertor with a
leftover collection changes nothing, and a still-ok build copies the
current collection. -/
theorem claim_C10_witness :
    start om0 { ({} : Convertor) with centerLinePts := [pt0] } (some p0) (some map5) =
      start om0 {} (some p0) (some map5) ∧
    stillOk { ({} : Convertor) with centerLinePts := [pt0] } ∧
    (buildKDTree { ({} : Convertor) with centerLinePts := [pt0] }).kdtreePts = [pt0] :=
  ⟨claim_C10.1 om0 {} [pt0] (some p0) (some map5), by decide,
    claim_C10.2 { ({} : Convertor) with centerLinePts := [pt0] } (by decide)⟩

end OpenDriveEngine

namespace OpenDriveEngine

/-- C7: when no geometry segment covers the requested road arc-length
(the modelled external lookup yields a negative index), the sampling
iteration stops at once with the ConversionError status and the
"get geometry index execption." message — in both the plain and the
clamped entry — the error recorded during road conversion makes every
later stage a no-op, and a road-conversion run that starts ok and ends
not-ok always ends with the CONVERTOR_CENTERLANE_ERROR code, which is
what Start returns to its caller; the pipeline never terminates
silently with an OK status on an uncovered arc-length. -/
theorem claim_C7 :
    (∀ (om : OffsetModel) (geos : List EleGeometry) (offs : List EleLaneOffset)
       (L stp : ℚ) (n : ℕ) (sds rd : ℚ) (idx : ℕ) (gty : Int) (lane : CoreLane)
       (st : Status), ¬ sds > L → geomFindIdx geos rd < 0 →
       sampleLoop om geos offs L stp (n + 1) sds rd idx gty lane st =
         ⟨lane, rd, geomErrStatus, true⟩) ∧
    (∀ (om : OffsetModel) (geos : List EleGeometry) (offs : List EleLaneOffset)
       (L stp : ℚ) (n : ℕ) (sds rd : ℚ) (idx : ℕ) (gty : Int) (lane : CoreLane)
       (st : Status), sds > L → ¬ sds - L ≥ stp - tol → geomFindIdx geos rd < 0 →
       sampleLoop om geos offs L stp (n + 1) sds rd idx gty lane st =
         ⟨lane, rd, geomErrStatus, true⟩) ∧
    (∀ (c : Convertor) (m : EleMap), ¬ stillOk c →
       endStage (buildKDTree (convertJunction c m)) = c) ∧
    (∀ (om : OffsetModel) (c : Convertor) (m : EleMap), stillOk c →
       ¬ stillOk (convertRoad om c m) →
       (convertRoad om c m).status.code = ErrCode.CONVERTOR_CENTERLANE_ERROR) ∧
    geomErrStatus.code = ErrCode.CONVERTOR_CENTERLANE_ERROR := by
  refine ⟨?_, ?_, ?_, ?_, rfl⟩
  · intro om geos offs L stp n sds rd idx gty lane st h1 hneg
    have hg : getGeometry geos rd st = (none, geomErrStatus) := by
      simp [getGeometry, hneg, geomErrStatus]
    exact sampleLoop_succ_fail om geos offs L stp n h1 hg
  · intro om geos offs L stp n sds rd idx gty lane st h1 h2 hneg
    have hg : getGeometry geos rd st = (none, geomErrStatus) := by
      simp [getGeometry, hneg, geomErrStatus]
    exact sampleLoop_succ_clamp_fail om geos offs L stp n h1 h2 hg
  · intro c m h
    rw [convertJunction_noop m h, buildKDTree_noop h, endStage_noop h]
  · intro om c m hok hbad
    rcases convertRoad_code om c m with h | h
    · exfalso
      exact hbad (by rw [stillOk, h]; exact hok)
    · exact h

/-- C7 witness: an empty geometry list does not cover road arc-length 5,
so the first sampling iteration fails with the ConversionError; on the
concrete map3 the road conversion turns an ok state into the
CONVERTOR_CENTERLANE_ERROR code. -/
theorem claim_C7_witness :
    (¬ (0 : ℚ) > 0) ∧ (geomFindIdx [] 5 < 0) ∧
    sampleLoop om0 [] [] 0 (1 / 10) 1 0 5 0 (-1) lane00 {} = ⟨lane00, 5, geomErrStatus, true⟩ ∧
    stillOk ({} : Convertor) ∧ ¬ stillOk (convertRoad om0 {} map3) ∧
    (convertRoad om0 {} map3).status.code = ErrCode.CONVERTOR_CENTERLANE_ERROR :=
  ⟨by norm_num, by decide,
    claim_C7.1 om0 [] [] 0 (1 / 10) 0 0 5 0 (-1) lane00 {} (by norm_num) (by decide),
    by decide, by with_unfolding_all decide,
    claim_C7.2.2.2.1 om0 {} map3 (by decide) (by with_unfolding_all decide)⟩

/-- C6: LaneSampling emits, per reference point, exactly three points at
that point's arc-length with id suffixes 1, 2 and 3: the reference
point unchanged as left boundary, the reference point offset by half
the signed width as central-curve point (the exact list registered for
the spatial index), and the reference point offset by the full signed
width as right boundary; the side-lane loop hands each lane's right
boundary to the next lane as its reference curve, and consequently
consecutive lanes of one side are stitched: the outer lane's left
boundary coincides pointwise (x, y, arc-length) with the inner lane's
right boundary. -/
theorem claim_C6 :
    (∀ (om : OffsetModel) (ele : EleLane) (lid pid : String) (ref : List Pt),
      (laneSampling om ele { id := lid, parentId := pid } ref).2 =
        (laneSampling om ele { id := lid, parentId := pid } ref).1.central ∧
      (laneSampling om ele { id := lid, parentId := pid } ref).1.leftB.length = ref.length ∧
      (laneSampling om ele { id := lid, parentId := pid } ref).1.central.length = ref.length ∧
      (laneSampling om ele { id := lid, parentId := pid } ref).1.rightB.length = ref.length ∧
      ∀ i, i < ref.length →
        (laneSampling om ele { id := lid, parentId := pid } ref).1.leftB.getD i pt0 =
          { ref.getD i pt0 with id := lid ++ "_" ++ toString i ++ "_1" } ∧
        (laneSampling om ele { id := lid, parentId := pid } ref).1.central.getD i pt0 =
          { offsetPt om (ref.getD i pt0)
              (ele.getLaneWidth (ref.getD i pt0).s * ((laneDir lid : Int) : ℚ) / 2) with
            id := lid ++ "_" ++ toString i ++ "_2" } ∧
        (laneSampling om ele { id := lid, parentId := pid } ref).1.rightB.getD i pt0 =
          { offsetPt om (ref.getD i pt0)
              (ele.getLaneWidth (ref.getD i pt0).s * ((laneDir lid : Int) : ℚ)) with
            id := lid ++ "_" ++ toString i ++ "_3" } ∧
        ((laneSampling om ele { id := lid, parentId := pid } ref).1.central.getD i pt0).s =
          (ref.getD i pt0).s ∧
        ((laneSampling om ele { id := lid, parentId := pid } ref).1.rightB.getD i pt0).s =
          (ref.getD i pt0).s) ∧
    (∀ (om : OffsetModel) (secId : String) (el : EleLane) (rest : List EleLane)
       (clb : List Pt),
      (sideLanesGo om secId (el :: rest) clb).1 =
        (laneSampling om el { id := secId ++ "_" ++ toString el.id, parentId := secId }
          clb).1 ::
        (sideLanesGo om secId rest
          (laneSampling om el { id := secId ++ "_" ++ toString el.id, parentId := secId }
            clb).1.rightB).1) ∧
    (∀ (om : OffsetModel) (secId : String) (els : List EleLane) (clb : List Pt),
      List.Chain' laneStitched (sideLanesGo om secId els clb).1) := by
  refine ⟨?_, ?_, sideLanesGo_chain⟩
  · intro om ele lid pid ref
    obtain ⟨hl1, hl2, hl3, hidx⟩ := laneSamplingGo_spec om ele lid (laneDir lid) ref 0
    have hkd : (laneSampling om ele { id := lid, parentId := pid } ref).2 =
        (laneSamplingGo om ele lid (laneDir lid) ref 0).2.1 := by
      simp [laneSampling]
    have hleft : (laneSampling om ele { id := lid, parentId := pid } ref).1.leftB =
        (laneSamplingGo om ele lid (laneDir lid) ref 0).1 := by
      simp [laneSampling]
    have hcent : (laneSampling om ele { id := lid, parentId := pid } ref).1.central =
        (laneSamplingGo om ele lid (laneDir lid) ref 0).2.1 := by
      simp [laneSampling]
    have hright : (laneSampling om ele { id := lid, parentId := pid } ref).1.rightB =
        (laneSamplingGo om ele lid (laneDir lid) ref 0).2.2 := by
      simp [laneSampling]
    refine ⟨by rw [hkd, hcent], by rw [hleft, hl1], by rw [hcent, hl2], by rw [hright, hl3], ?_⟩
    intro i hi
    obtain ⟨e1, e2, e3⟩ := hidx i hi
    simp only [Nat.zero_add] at e1 e2 e3
    refine ⟨by rw [hleft]; exact e1, by rw [hcent]; exact e2, by rw [hright]; exact e3, ?_, ?_⟩
    · rw [hcent, e2]
      rfl
    · rw [hright, e3]
      rfl
  · intro om secId el rest clb
    rfl

/-- C6 witness: a concrete right lane (local id -1, width 2) sampled
from a two-point reference curve emits the three expected points at the
reference arc-lengths. -/
theorem claim_C6_witness :
    (0 < [{ s := 0 }, ({ s := 1 / 10 } : Pt)].length) ∧
    ((laneSampling om0 { id := -1, getLaneWidth := fun _ => 2 }
        { id := "1_0_-1", parentId := "1_0" }
        [{ s := 0 }, { s := 1 / 10 }]).1.leftB.getD 0 pt0 =
      { ({ s := 0 } : Pt) with id := "1_0_-1" ++ "_" ++ toString 0 ++ "_1" } ∧
     (laneSampling om0 { id := -1, getLaneWidth := fun _ => 2 }
        { id := "1_0_-1", parentId := "1_0" }
        [{ s := 0 }, { s := 1 / 10 }]).1.central.getD 0 pt0 =
      { offsetPt om0 ({ s := 0 } : Pt)
          (({ id := -1, getLaneWidth := fun _ => 2 } : EleLane).getLaneWidth
            (({ s := 0 } : Pt)).s * ((laneDir ("1_0_-1") : Int) : ℚ) / 2) with
        id := "1_0_-1" ++ "_" ++ toString 0 ++ "_2" } ∧
     (laneSampling om0 { id := -1, getLaneWidth := fun _ => 2 }
        { id := "1_0_-1", parentId := "1_0" }
        [{ s := 0 }, { s := 1 / 10 }]).1.rightB.getD 0 pt0 =
      { offsetPt om0 ({ s := 0 } : Pt)
          (({ id := -1, getLaneWidth := fun _ => 2 } : EleLane).getLaneWidth
            (({ s := 0 } : Pt)).s * ((laneDir ("1_0_-1") : Int) : ℚ)) with
        id := "1_0_-1" ++ "_" ++ toString 0 ++ "_3" } ∧
     ((laneSampling om0 { id := -1, getLaneWidth := fun _ => 2 }
        { id := "1_0_-1", parentId := "1_0" }
        [{ s := 0 }, { s := 1 / 10 }]).1.central.getD 0 pt0).s = (({ s := 0 } : Pt)).s ∧
     ((laneSampling om0 { id := -1, getLaneWidth := fun _ => 2 }
        { id := "1_0_-1", parentId := "1_0" }
        [{ s := 0 }, { s := 1 / 10 }]).1.rightB.getD 0 pt0).s = (({ s := 0 } : Pt)).s) :=
  ⟨by decide,
    by
      have h := (claim_C6.1 om0 { id := -1, getLaneWidth := fun _ => 2 }
        ("1_0_-1") ("1_0") [{ s := 0 }, { s := 1 / 10 }]).2.2.2.2 0 (by decide)
      simpa using h⟩

end OpenDriveEngine

namespace OpenDriveEngine

/-- C2: on an index over N sample points, a query with k not exceeding N
succeeds (code 0) with exactly k results sorted by non-decreasing true
(square-rooted) distance, each result carrying an indexed point's x, y
and id together with the true Euclidean distance to the query (stored
squared, compared under Real.sqrt); a query with k exceeding N fails
with code -1 and an empty results container; the search leaves the
index unchanged and its output never depends on the incoming contents
of the results container (they are cleared first). -/
theorem claim_C2 :
    ∀ (samples : List SamplePt) (x y : ℚ) (k : ℕ) (resIn : List KDTreeResult),
      (k ≤ samples.length →
        (kdSearch (adaptorInit samples) x y k resIn).1 = 0 ∧
        (kdSearch (adaptorInit samples) x y k resIn).2.length = k ∧
        List.Pairwise (fun a b : KDTreeResult =>
          Real.sqrt ((a.dist2 : ℝ)) ≤ Real.sqrt ((b.dist2 : ℝ)))
          (kdSearch (adaptorInit samples) x y k resIn).2 ∧
        ∀ r ∈ (kdSearch (adaptorInit samples) x y k resIn).2,
          ∃ i, i < samples.length ∧
            r.x = (samples.getD i {}).x ∧ r.y = (samples.getD i {}).y ∧
            r.id = (samples.getD i {}).id ∧
            Real.sqrt ((r.dist2 : ℝ)) =
              Real.sqrt ((((r.x - x) ^ 2 + (r.y - y) ^ 2 : ℚ) : ℝ))) ∧
      (samples.length < k → kdSearch (adaptorInit samples) x y k resIn = (-1, [])) ∧
      (kdSearchFull (adaptorInit samples) x y k resIn).1 = adaptorInit samples ∧
      kdSearch (adaptorInit samples) x y k resIn = kdSearch (adaptorInit samples) x y k [] := by
  intro samples x y k resIn
  have hmlen : (adaptorInit samples).matrix.length = samples.length := by
    simp [adaptorInit]
  refine ⟨?_, ?_, rfl, rfl⟩
  · intro hk
    have hk' : k ≤ (adaptorInit samples).matrix.length := by rw [hmlen]; exact hk
    rw [kdSearch_le _ _ _ _ _ hk']
    refine ⟨rfl, ?_, ?_, ?_⟩
    · rw [List.length_map, knnSearchModel_length _ _ _ _ hk']
    · rw [List.pairwise_map]
      apply (knnSearchModel_sorted (adaptorInit samples).matrix x y k).imp
      intro a b hab
      exact Real.sqrt_le_sqrt (by exact_mod_cast hab)
    · intro r hr
      obtain ⟨ip, hip, hipr⟩ := List.mem_map.1 hr
      obtain ⟨hlt, hd2⟩ := knnSearchModel_mem (adaptorInit samples).matrix x y k hip
      have hlt' : ip.1 < samples.length := by rwa [hmlen] at hlt
      obtain ⟨hmat, hid⟩ := adaptorInit_getD samples ip.1 hlt'
      refine ⟨ip.1, hlt', ?_, ?_, ?_, ?_⟩
      · rw [← hipr]
        show ((adaptorInit samples).matrix.getD ip.1 (0, 0)).1 = (samples.getD ip.1 {}).x
        rw [hmat]
      · rw [← hipr]
        show ((adaptorInit samples).matrix.getD ip.1 (0, 0)).2 = (samples.getD ip.1 {}).y
        rw [hmat]
      · rw [← hipr]
        exact hid
      · rw [← hipr]
        show Real.sqrt ((ip.2 : ℝ)) = Real.sqrt
          (((((adaptorInit samples).matrix.getD ip.1 (0, 0)).1 - x) ^ 2 +
            (((adaptorInit samples).matrix.getD ip.1 (0, 0)).2 - y) ^ 2 : ℚ))
        rw [hd2, hmat]
        simp [sqDist]
  · intro hk
    exact kdSearch_gt _ _ _ _ _ (by rwa [hmlen])

/-- C2 witness: the spec example — three points a(0,0), b(1,0), c(5,0);
the 2-nearest query at the origin succeeds with [a at squared distance
0, b at squared distance 1] in that order. -/
theorem claim_C2_witness :
    2 ≤ [pa, pb, pc].length ∧
    (kdSearch (adaptorInit [pa, pb, pc]) 0 0 2 []).2.map (fun r => (r.id, r.dist2)) =
      [("a", 0), ("b", 1)] ∧
    (kdSearch (adaptorInit [pa, pb, pc]) 0 0 2 []).1 = 0 ∧
    (kdSearch (adaptorInit [pa, pb, pc]) 0 0 2 []).2.length = 2 :=
  ⟨by decide, by with_unfolding_all decide,
    ((claim_C2 [pa, pb, pc] 0 0 2 []).1 (by decide)).1,
    ((claim_C2 [pa, pb, pc] 0 0 2 []).1 (by decide)).2.1⟩

/-- C1: for every section whose geometry covers the traversed road
arc-lengths, whose length is non-negative and does not fall in the
sub-tolerance window just below a step multiple, the sequence of
section-local arc-length positions sampled by CenterLaneSampling is
non-decreasing, begins at 0 and ends exactly at the section length
(clamped); in particular with step 1/10 and section length 1/4 the
sampled positions are exactly 0, 1/10, 1/5, 1/4 — four points, the
last clamped. -/
theorem claim_C1 :
    (∀ (om : OffsetModel) (geos : List EleGeometry) (offs : List EleLaneOffset)
       (L stp rd0 : ℚ) (lane : CoreLane) (st : Status),
       1 / 10 ≤ stp → 0 ≤ L →
       (∀ q, q < rd0 + L + stp → 0 ≤ geomFindIdx geos q) →
       (∀ j : ℕ, (j : ℚ) * stp < L → (j : ℚ) * stp < L - tol) →
       List.Pairwise (fun a b : Pt => a.s ≤ b.s)
         (centerLaneSampling om geos offs L lane rd0 stp st).lane.central ∧
       (∃ p, (centerLaneSampling om geos offs L lane rd0 stp st).lane.central.head? =
          some p ∧ p.s = 0) ∧
       (∃ p, (centerLaneSampling om geos offs L lane rd0 stp st).lane.central.getLast? =
          some p ∧ p.s = L)) ∧
    (centerLaneSampling om0 geos0 [] (1 / 4) lane00 0 (1 / 10) {}).lane.central.map
        (fun p => p.s) = [0, 1 / 10, 1 / 5, 1 / 4] := by
  constructor
  · intro om geos offs L stp rd0 lane st hstp hL hcov htol
    have hstp0 : (0 : ℚ) < stp := by linarith
    refine ⟨?_, ?_, ?_⟩
    · have h := sampleLoop_sorted om geos offs L stp (le_of_lt hstp0) (sampleFuel L stp)
        0 rd0 0 (-1) { lane with central := [] } st (by simp) (by simp)
      simpa [centerLaneSampling] using h
    · obtain ⟨g, hg⟩ := getGeometry_some geos rd0 st (hcov rd0 (by linarith))
      have hh := sampleLoop_head om geos offs stp hL
        ((L + 2 * stp) / stp).num.toNat 0 (-1) { lane with central := [] } rfl hg
      simpa [centerLaneSampling, sampleFuel] using hh
    · have hdone := sampleLoop_done om geos offs L stp hstp (sampleFuel L stp)
        0 rd0 0 (-1) { lane with central := [] } st (sampleFuel_pos L stp)
        (by have := sampleFuel_ge L stp hstp; linarith)
      have hdone' : (sampleLoop om geos offs L stp (sampleFuel L stp)
          (((0 : ℕ) : ℚ) * stp) (rd0 + ((0 : ℕ) : ℚ) * stp) 0 (-1)
          { lane with central := [] } st).done = true := by
        simpa using hdone
      have hlast := sampleLoop_last om geos offs hstp hL hcov htol (sampleFuel L stp)
        0 0 (-1) { lane with central := [] } st (by simpa using hL) hdone'
      simpa [centerLaneSampling] using hlast
  · with_unfolding_all decide

/-- C1 witness: the universal part instantiated at the concrete
spec-example inputs — identity geometry, no lane offsets, section length
1/4, step 1/10, road cursor 0. -/
theorem claim_C1_witness :
    ((1 : ℚ) / 10 ≤ 1 / 10) ∧ ((0 : ℚ) ≤ 1 / 4) ∧
    (List.Pairwise (fun a b : Pt => a.s ≤ b.s)
        (centerLaneSampling om0 geos0 [] (1 / 4) lane00 0 (1 / 10) {}).lane.central ∧
      (∃ p, (centerLaneSampling om0 geos0 [] (1 / 4) lane00 0 (1 / 10) {}).lane.central.head? =
        some p ∧ p.s = 0) ∧
      (∃ p, (centerLaneSampling om0 geos0 [] (1 / 4) lane00 0 (1 / 10) {}).lane.central.getLast?
        = some p ∧ p.s = 1 / 4)) :=
  ⟨by norm_num, by norm_num,
    claim_C1.1 om0 geos0 [] (1 / 4) (1 / 10) 0 lane00 {} (by norm_num) (by norm_num)
      (by
        intro q hq
        have hq100 : q < 100 := by linarith
        simp [geos0, geomFindIdx, hq100])
      (by
        intro j hj
        have h3 : (j : ℚ) < 3 := by linarith
        have hj3 : j < 3 := by exact_mod_cast h3
        interval_cases j <;> norm_num [tol])⟩

end OpenDriveEngine
